import Mathlib

/-!
# Project tracker: the store and the request router of `src/index.js`

A shallow embedding of the JSON API served by `src/index.js`.

* The persisted document `{programmes: [...]}` is the structure `Store`; `loadData` and
  `saveData` become explicit state passing: `router` takes the document that `loadData`
  returns and gives back the document that is on disk when the response has been sent.
* A request is its method, the `pathname` of its URL and the outcome of `JSON.parse` on its
  body (`none` when `JSON.parse` throws).
* An id is an integer (`Int`) that stands for the JavaScript number holding it. The two
  places where the code computes with numbers are modelled with the rounding of IEEE 754
  doubles: `parseInt` gives the double nearest to the digits it reads (`toNumber`), and
  `Math.max(...ids) + 1` gives the double nearest to the exact sum (`roundDouble`).
* `Math.max(...ids)` throws a `RangeError` when the array has more elements than the engine
  can pass as arguments. That bound depends on the engine and its stack size; it is the
  parameter `maxSpread` of the model.
* JSON numbers in request bodies are restricted to integers.
* One request is handled at a time; static files and response headers are outside the model.
-/

namespace ProjectTracker

/-! ## JSON values -/

/-- A value returned by `JSON.parse`. An object is the list of its members in source order. -/
inductive JVal where
  | null
  | bool (b : Bool)
  | num (n : Int)
  | str (s : String)
  | arr (xs : List JVal)
  | obj (members : List (String × JVal))

/-- The property `key` of a parsed value, as read by the destructuring `const { key } = value`:
the last member with that key for an object (`JSON.parse` keeps the last duplicate), and
`undefined` (`none`) for numbers, booleans, strings and arrays. Destructuring `null` throws;
the handlers treat that case before they read a property. -/
def JVal.prop (key : String) : JVal → Option JVal
  | .obj members => members.foldl (fun acc kv => if kv.1 = key then some kv.2 else acc) none
  | _ => none

/-- JavaScript truthiness of a JSON value: `null`, `false`, `0` and `""` are falsy. -/
def JVal.truthy : JVal → Bool
  | .null => false
  | .bool b => b
  | .num n => n != 0
  | .str s => s != ""
  | .arr _ => true
  | .obj _ => true

/-- The test `typeof v === 'string'`. -/
def JVal.isString : JVal → Bool
  | .str _ => true
  | _ => false

/-! ## The data model -/

/-- A task `{id, name, start, end}`. The three fields other than `id` are stored as received. -/
structure Task where
  id : Int
  name : JVal
  start : JVal
  end_ : JVal

/-- A module `{id, name, tasks}`. -/
structure Module where
  id : Int
  name : JVal
  tasks : List Task

/-- A programme `{id, name, modules}`. -/
structure Programme where
  id : Int
  name : JVal
  modules : List Module

/-- The persisted document `{programmes}`. -/
structure Store where
  programmes : List Programme

/-! ## Requests and responses -/

/-- An incoming request: `req.method`, `url.pathname`, and `JSON.parse(body)`
(`none` when the body is not well-formed JSON). -/
structure Request where
  method : String
  pathname : List Char
  body : Option JVal

/-- The object handed to `sendJSON`. -/
inductive Payload where
  | document (data : Store)
  | programmes (ps : List Programme)
  | programme (p : Programme)
  | module (m : Module)
  | moduleOf (m : Module) (programmeId : Int)
  | task (t : Task)
  | error (message : String)

/-- What the server answers: a JSON response with its status, the empty 204 answer to a
CORS preflight, or whatever `serveStatic` produces for a path outside the API. -/
inductive Response where
  | json (status : Nat) (body : Payload)
  | preflight
  | static

/-- The HTTP status of a response, when the model determines it. -/
def Response.status : Response → Option Nat
  | .json status _ => some status
  | .preflight => some 204
  | .static => none

/-! ## Numbers -/

/-- The values that `parseInt` can return other than `NaN`: an integer, or one of the two
infinities when the digits exceed the range of a double. -/
inductive Number where
  | int (n : Int)
  | infinity
  | negInfinity
  deriving DecidableEq

/-- The distance between neighbouring doubles around `n`: the least power of two `u`, starting
from `u`, with `n < 2^53 * u`. The first argument bounds the search. -/
def spacing : Nat → Nat → Nat → Nat
  | 0, _, u => u
  | fuel + 1, n, u => if n < 9007199254740992 * u then u else spacing fuel n (2 * u)

/-- The double nearest to the natural number `n`, ties going to the even significand (IEEE 754
round to nearest even). Every `n` up to `2^53 = 9007199254740992` is a double. -/
def roundNat (n : Nat) : Nat :=
  if n ≤ 9007199254740992 then n
  else
    let u := spacing n n 1
    let q := n / u
    let r := n % u
    if 2 * r < u ∨ (2 * r = u ∧ q % 2 = 0) then q * u else (q + 1) * u

/-- The double nearest to the integer `i`. -/
def roundDouble (i : Int) : Int :=
  if i < 0 then -(roundNat i.natAbs : Int) else (roundNat i.natAbs : Int)

/-- The magnitude `2^1024`, from which a rounded value is an infinity. -/
def overflow : Nat := 2 ^ 256 * 2 ^ 256 * 2 ^ 256 * 2 ^ 256

/-- The JavaScript number that an integer written in decimal digits denotes. -/
def toNumber (i : Int) : Number :=
  if overflow ≤ roundNat i.natAbs then (if i < 0 then .negInfinity else .infinity)
  else .int (roundDouble i)

/-! ## Path handling -/

/-- The method `str.split(sep)` for a one-character separator. -/
def split (sep : Char) : List Char → List (List Char)
  | [] => [[]]
  | c :: cs =>
    if c = sep then [] :: split sep cs
    else
      match split sep cs with
      | [] => [[c]]
      | s :: ss => (c :: s) :: ss

/-- The array `parts = pathname.split('/').filter(Boolean)`. -/
def parts (pathname : List Char) : List (List Char) :=
  (split '/' pathname).filter (fun s => !s.isEmpty)

/-- The method `str.startsWith(pre)`. -/
def startsWith : List Char → List Char → Bool
  | _, [] => true
  | [], _ :: _ => false
  | c :: cs, p :: ps => c == p && startsWith cs ps

/-- The characters that `parseInt` skips at the start of its argument
(ECMAScript `WhiteSpace` and `LineTerminator`). -/
def isWhiteSpace (c : Char) : Bool :=
  c.toNat ∈ [0x9, 0xA, 0xB, 0xC, 0xD, 0x20, 0xA0, 0x1680, 0x2000, 0x2001, 0x2002, 0x2003,
    0x2004, 0x2005, 0x2006, 0x2007, 0x2008, 0x2009, 0x200A, 0x2028, 0x2029, 0x202F, 0x205F,
    0x3000, 0xFEFF]

/-- The value of a run of decimal digits, most significant first. -/
def digitsValue (ds : List Char) : Nat :=
  ds.foldl (fun acc c => 10 * acc + (c.toNat - 48)) 0

/-- The optional sign that `parseInt` reads before the digits: whether it was a minus sign,
and the text after it. -/
def stripSign : List Char → Bool × List Char
  | [] => (false, [])
  | c :: r => if c = '-' then (true, r) else if c = '+' then (false, r) else (false, c :: r)

/-- The function `parseInt(str, 10)`: skip leading white space, read an optional sign, then
the longest run of decimal digits; whatever follows is ignored. The result is the double
nearest to the integer read. `none` stands for `NaN`. -/
def parseInt (str : List Char) : Option Number :=
  let signed := stripSign (str.dropWhile isWhiteSpace)
  let ds := signed.2.takeWhile Char.isDigit
  if ds.isEmpty then none
  else if signed.1 then some (toNumber (-(digitsValue ds : Int)))
  else some (toNumber (digitsValue ds : Int))

/-- The function `extractId(str)` (index.js lines 72-75); the argument is `route[1]`, which is
`undefined` (`none`) when the route has a single segment, and `parseInt` then reads the text
`undefined`. -/
def extractId (str : Option (List Char)) : Option Number :=
  match str with
  | some s => parseInt s
  | none => parseInt "undefined".toList

/-- The decimal digit `d` as a character. -/
def digitChar (d : Nat) : Char := Char.ofNat (48 + d)

/-- The decimal text of a natural number. -/
def natDecimal (n : Nat) : List Char :=
  if n = 0 then ['0'] else (Nat.digits 10 n).reverse.map digitChar

/-- The decimal digits of an integer, after a minus sign when it is negative: the text that
stands for an id in a path. It is what a template literal such as
`/api/modules/${module.id}/tasks` in `frontend/script.js` produces for an id of magnitude
below `10^21`. -/
def decimal (i : Int) : List Char :=
  match i with
  | .ofNat n => natDecimal n
  | .negSucc n => '-' :: natDecimal (n + 1)

/-- The path `/api/programmes/${id}` that `frontend/script.js` requests. -/
def programmePath (id : Int) : List Char := "/api/programmes/".toList ++ decimal id

/-- The path `/api/programmes/${id}/modules` that `frontend/script.js` posts to. -/
def programmeModulesPath (id : Int) : List Char :=
  "/api/programmes/".toList ++ (decimal id ++ "/modules".toList)

/-- The path `/api/modules/${id}` of the module lookup. -/
def modulePath (id : Int) : List Char := "/api/modules/".toList ++ decimal id

/-- The path `/api/modules/${id}/tasks` that `frontend/script.js` posts to. -/
def moduleTasksPath (id : Int) : List Char :=
  "/api/modules/".toList ++ (decimal id ++ "/tasks".toList)

/-! ## Handlers -/

/-- The id given to a new entity: `ids.length ? Math.max(...ids) + 1 : 1`. The spread throws
a `RangeError` (`none`) when there are more than `maxSpread` ids; otherwise the sum is rounded
to a double. The ids of a document are finite doubles, so the sum does not overflow. -/
def newId (maxSpread : Nat) (ids : List Int) : Option Int :=
  match ids with
  | [] => some 1
  | i :: rest =>
    if maxSpread < (i :: rest).length then none
    else some (roundDouble (rest.foldl max i + 1))

/-- Replace the first element satisfying `p`: the effect on an array of mutating the object
that `find` returned. -/
def updateFirst {α : Type} (p : α → Bool) (f : α → α) : List α → List α
  | [] => []
  | x :: xs => if p x then f x :: xs else x :: updateFirst p f xs

/-- The programme after `programme.modules.push(newModule)`. -/
def pushModule (newModule : Module) (p : Programme) : Programme :=
  { p with modules := p.modules ++ [newModule] }

/-- The module after `moduleRef.tasks.push(newTask)`. -/
def pushTask (newTask : Task) (m : Module) : Module :=
  { m with tasks := m.tasks ++ [newTask] }

/-- Whether `programme.modules.find((m) => m.id === moduleId)` finds a module. -/
def ownsModule (moduleId : Number) (p : Programme) : Bool :=
  (p.modules.find? (fun m => Number.int m.id == moduleId)).isSome

/-- The programme after the push onto the module that the scan found in it. -/
def pushTaskIn (moduleId : Number) (newTask : Task) (p : Programme) : Programme :=
  { p with modules :=
      updateFirst (fun m => Number.int m.id == moduleId) (pushTask newTask) p.modules }

/-- The answer of every `catch` block: to a body that `JSON.parse` rejects, to the body `null`
(destructuring it throws), and to a `RangeError` of the spread. -/
def invalidJSON : Response := .json 400 (.error "Invalid JSON")

/-- The handler of `POST /api/programmes` (index.js lines 114-136). -/
def postProgramme (maxSpread : Nat) (data : Store) (body : Option JVal) : Response × Store :=
  match body with
  | none => (invalidJSON, data)
  | some .null => (invalidJSON, data)
  | some parsed =>
    match parsed.prop "name" with
    | none => (.json 400 (.error "Name is required"), data)
    | some name =>
      if !name.truthy || !name.isString then (.json 400 (.error "Name is required"), data)
      else
        match newId maxSpread (data.programmes.map (fun p => p.id)) with
        | none => (invalidJSON, data)
        | some id =>
          let newProgramme : Programme := { id := id, name := name, modules := [] }
          (.json 201 (.programme newProgramme),
            { programmes := data.programmes ++ [newProgramme] })

/-- The handler of `GET /api/programmes/:programmeId` (index.js lines 138-147). -/
def getProgramme (data : Store) (programmeId : Number) : Response × Store :=
  match data.programmes.find? (fun p => Number.int p.id == programmeId) with
  | none => (.json 404 (.error "Programme not found"), data)
  | some programme => (.json 200 (.programme programme), data)

/-- The handler of `POST /api/programmes/:programmeId/modules` (index.js lines 149-176). -/
def postModule (maxSpread : Nat) (data : Store) (programmeId : Number) (body : Option JVal) :
    Response × Store :=
  match data.programmes.find? (fun p => Number.int p.id == programmeId) with
  | none => (.json 404 (.error "Programme not found"), data)
  | some programme =>
    match body with
    | none => (invalidJSON, data)
    | some .null => (invalidJSON, data)
    | some parsed =>
      match parsed.prop "name" with
      | none => (.json 400 (.error "Module name is required"), data)
      | some name =>
        if !name.truthy || !name.isString then
          (.json 400 (.error "Module name is required"), data)
        else
          match newId maxSpread (programme.modules.map (fun m => m.id)) with
          | none => (invalidJSON, data)
          | some id =>
            let newModule : Module := { id := id, name := name, tasks := [] }
            (.json 201 (.module newModule),
              { programmes := updateFirst (fun p => Number.int p.id == programmeId)
                  (pushModule newModule) data.programmes })

/-- The scan shared by the two module routes: the first programme, in order, that has a module
with the given id, together with the first such module in it. -/
def findModule (moduleId : Number) : List Programme → Option (Programme × Module)
  | [] => none
  | programme :: rest =>
    match programme.modules.find? (fun m => Number.int m.id == moduleId) with
    | some m => some (programme, m)
    | none => findModule moduleId rest

/-- The handler of `GET /api/modules/:id` (index.js lines 182-197). -/
def getModule (data : Store) (moduleId : Number) : Response × Store :=
  match findModule moduleId data.programmes with
  | none => (.json 404 (.error "Module not found"), data)
  | some (programme, m) => (.json 200 (.moduleOf m programme.id), data)

/-- The handler of `POST /api/modules/:id/tasks` (index.js lines 199-235). -/
def postTask (maxSpread : Nat) (data : Store) (moduleId : Number) (body : Option JVal) :
    Response × Store :=
  match findModule moduleId data.programmes with
  | none => (.json 404 (.error "Module not found"), data)
  | some (_, moduleRef) =>
    match body with
    | none => (invalidJSON, data)
    | some .null => (invalidJSON, data)
    | some parsed =>
      match parsed.prop "name", parsed.prop "start", parsed.prop "end" with
      | some name, some start, some end_ =>
        if !name.truthy || !start.truthy || !end_.truthy then
          (.json 400 (.error "Name, start, and end are required"), data)
        else
          match newId maxSpread (moduleRef.tasks.map (fun t => t.id)) with
          | none => (invalidJSON, data)
          | some id =>
            let newTask : Task := { id := id, name := name, start := start, end_ := end_ }
            (.json 201 (.task newTask),
              { programmes := updateFirst (ownsModule moduleId) (pushTaskIn moduleId newTask)
                  data.programmes })
      | _, _, _ => (.json 400 (.error "Name, start, and end are required"), data)

/-- The block `if (route[0] === 'programmes')` (lines 107-177); `none` when control leaves the
block without a response. -/
def programmesRoutes (maxSpread : Nat) (data : Store) (req : Request)
    (route : List (List Char)) : Option (Response × Store) :=
  if route.head? = some "programmes".toList then
    if req.method = "GET" ∧ route.length = 1 then
      some (.json 200 (.programmes data.programmes), data)
    else if req.method = "POST" ∧ route.length = 1 then
      some (postProgramme maxSpread data req.body)
    else
      match extractId (route.get? 1) with
      | some programmeId =>
        if route.length = 2 ∧ req.method = "GET" then some (getProgramme data programmeId)
        else if route.length = 3 ∧ route.get? 2 = some "modules".toList ∧ req.method = "POST" then
          some (postModule maxSpread data programmeId req.body)
        else none
      | none => none
  else none

/-- The block `if (route[0] === 'modules')` (lines 179-236); `none` when control leaves the
block without a response. -/
def modulesRoutes (maxSpread : Nat) (data : Store) (req : Request)
    (route : List (List Char)) : Option (Response × Store) :=
  if route.head? = some "modules".toList then
    match extractId (route.get? 1) with
    | some moduleId =>
      if req.method = "GET" ∧ route.length = 2 then some (getModule data moduleId)
      else if req.method = "POST" ∧ route.length = 3 ∧ route.get? 2 = some "tasks".toList then
        some (postTask maxSpread data moduleId req.body)
      else none
    | none => none
  else none

/-- The callback of `http.createServer` (lines 77-245): the response to a request and the
persisted document afterwards, on an engine whose spread passes at most `maxSpread`
arguments. -/
def router (maxSpread : Nat) (data : Store) (req : Request) : Response × Store :=
  if req.method = "OPTIONS" then (.preflight, data)
  else if startsWith req.pathname "/api".toList then
    let route := (parts req.pathname).drop 1
    if req.method = "GET" ∧ req.pathname = "/api/data".toList then
      (.json 200 (.document data), data)
    else
      match programmesRoutes maxSpread data req route with
      | some result => result
      | none =>
        match modulesRoutes maxSpread data req route with
        | some result => result
        | none => (.json 404 (.error "Not Found"), data)
  else (.static, data)

/-! ## Predicates used in the statements -/

/-- A list of characters all of which are decimal digits. -/
def AllDigits (l : List Char) : Prop := ∀ c ∈ l, ∃ d, d < 10 ∧ c = digitChar d

/-- The member `key` that a create handler reads from a request body: nothing when the body
is not well-formed JSON, is `null`, or has no such member. -/
def fieldOf (key : String) (body : Option JVal) : Option JVal := body.bind (JVal.prop key)

/-- JavaScript truthiness of a destructured member, which is `undefined`, hence falsy,
when the body has no such member. -/
def isTruthy : Option JVal → Bool
  | some v => v.truthy
  | none => false

/-- An integer of magnitude below `2^53` (`Number.isSafeInteger`). -/
def SafeInteger (n : Int) : Prop := -9007199254740992 < n ∧ n < 9007199254740992

/-- An integer that a JavaScript number holds exactly, so that `parseInt` reads its digits
back as itself. Every id of a loaded document is one; so is every integer of magnitude up to
`2^53`. -/
def IsDouble (n : Int) : Prop := toNumber n = Number.int n

/-- Every id of the store is a safe integer. -/
def SafeIds (data : Store) : Prop :=
  ∀ p ∈ data.programmes, SafeInteger p.id
    ∧ ∀ m ∈ p.modules, SafeInteger m.id ∧ ∀ t ∈ m.tasks, SafeInteger t.id

/-- The store `data'` is `data` with one new entity at the end of one collection, the id of
the new entity being the one that `newId` gives for its siblings. -/
def Created (maxSpread : Nat) (data data' : Store) : Prop :=
  (∃ p : Programme, p.modules = []
      ∧ newId maxSpread (data.programmes.map (fun q => q.id)) = some p.id
      ∧ data'.programmes = data.programmes ++ [p])
  ∨ (∃ (pre post : List Programme) (P : Programme) (m : Module),
      data.programmes = pre ++ P :: post ∧ m.tasks = []
      ∧ newId maxSpread (P.modules.map (fun q => q.id)) = some m.id
      ∧ data'.programmes = pre ++ ⟨P.id, P.name, P.modules ++ [m]⟩ :: post)
  ∨ (∃ (pre post : List Programme) (P : Programme) (mpre mpost : List Module) (M : Module)
      (t : Task),
      data.programmes = pre ++ P :: post ∧ P.modules = mpre ++ M :: mpost
      ∧ newId maxSpread (M.tasks.map (fun q => q.id)) = some t.id
      ∧ data'.programmes
          = pre ++ ⟨P.id, P.name, mpre ++ ⟨M.id, M.name, M.tasks ++ [t]⟩ :: mpost⟩ :: post)

/-- Ids are unique within each collection: the programmes of the store, the modules of each
programme, the tasks of each module. -/
def UniqueIds (data : Store) : Prop :=
  (data.programmes.map (fun p => p.id)).Nodup
    ∧ ∀ p ∈ data.programmes, (p.modules.map (fun m => m.id)).Nodup
      ∧ ∀ m ∈ p.modules, (m.tasks.map (fun t => t.id)).Nodup

/-- The table of the endpoints that the router serves, read on the segments of the path.
The first segment is any text (the router only asks that the path start with `/api`), and
an id segment is any text from which `parseInt` reads a number. -/
def servedEndpoint (method : String) (pathname : List Char) : Bool :=
  (method == "GET" && pathname == "/api/data".toList) ||
  match parts pathname with
  | [_, r] => r == "programmes".toList && (method == "GET" || method == "POST")
  | [_, r, seg] =>
    (r == "programmes".toList || r == "modules".toList) && method == "GET"
      && (parseInt seg).isSome
  | [_, r, seg, sub] =>
    method == "POST" && (parseInt seg).isSome
      && ((r == "programmes".toList && sub == "modules".toList)
        || (r == "modules".toList && sub == "tasks".toList))
  | _ => false

/-- Whether a path segment is a decimal integer: one or more decimal digits. -/
def isDecimalSegment (seg : List Char) : Bool := !seg.isEmpty && seg.all Char.isDigit

/-- The seven endpoints as the specification lists them, with `:id` a decimal integer
segment. It follows the words of the specification, not the code. -/
def specListedEndpoint (method : String) (pathname : List Char) : Bool :=
  (method == "GET" && pathname == "/api/data".toList) ||
  match split '/' pathname with
  | [[], a, r] =>
    a == "api".toList && r == "programmes".toList && (method == "GET" || method == "POST")
  | [[], a, r, seg] =>
    a == "api".toList && (r == "programmes".toList || r == "modules".toList)
      && method == "GET" && isDecimalSegment seg
  | [[], a, r, seg, sub] =>
    a == "api".toList && method == "POST" && isDecimalSegment seg
      && ((r == "programmes".toList && sub == "modules".toList)
        || (r == "modules".toList && sub == "tasks".toList))
  | _ => false

/-! ## Numbers that are held exactly -/

theorem roundNat_of_le (n : Nat) (h : n ≤ 9007199254740992) : roundNat n = n := by
  simp [roundNat, h]

theorem lt_overflow : 9007199254740992 < overflow := by
  unfold overflow
  norm_num

theorem roundDouble_of_abs_le (i : Int)
    (h : -9007199254740992 ≤ i ∧ i ≤ 9007199254740992) : roundDouble i = i := by
  have hn : i.natAbs ≤ 9007199254740992 := by omega
  unfold roundDouble
  rw [roundNat_of_le _ hn]
  split <;> omega

/-- Every integer of magnitude up to `2^53` is held exactly. -/
theorem isDouble_of_abs_le (i : Int)
    (h : -9007199254740992 ≤ i ∧ i ≤ 9007199254740992) : IsDouble i := by
  have hn : i.natAbs ≤ 9007199254740992 := by omega
  unfold IsDouble toNumber
  rw [roundNat_of_le _ hn, if_neg (by have := lt_overflow; omega), roundDouble_of_abs_le i h]

theorem isDouble_of_safe (i : Int) (h : SafeInteger i) : IsDouble i :=
  isDouble_of_abs_le i ⟨by have := h.1; omega, by have := h.2; omega⟩

/-! ## Paths -/

theorem split_of_not_mem (s : List Char) (h : '/' ∉ s) : split '/' s = [s] := by
  induction s with
  | nil => rfl
  | cons c cs ih =>
    simp only [List.mem_cons, not_or] at h
    have hc : c ≠ '/' := fun e => h.1 e.symm
    simp [split, hc, ih h.2]

theorem split_append_sep (s rest : List Char) (h : '/' ∉ s) :
    split '/' (s ++ '/' :: rest) = s :: split '/' rest := by
  induction s with
  | nil => simp [split]
  | cons c cs ih =>
    simp only [List.mem_cons, not_or] at h
    have hc : c ≠ '/' := fun e => h.1 e.symm
    simp [split, hc, ih h.2]

theorem parts_sep (rest : List Char) : parts ('/' :: rest) = parts rest := by
  simp [parts, split]

theorem parts_segment (s rest : List Char) (h : '/' ∉ s) (hs : s ≠ []) :
    parts (s ++ '/' :: rest) = s :: parts rest := by
  cases s with
  | nil => exact absurd rfl hs
  | cons c cs =>
    have e := split_append_sep (c :: cs) rest h
    unfold parts
    rw [e]
    simp

theorem parts_last (s : List Char) (h : '/' ∉ s) (hs : s ≠ []) : parts s = [s] := by
  cases s with
  | nil => exact absurd rfl hs
  | cons c cs =>
    unfold parts
    rw [split_of_not_mem _ h]
    simp

theorem digitChar_spec (d : Nat) (h : d < 10) :
    (digitChar d).isDigit = true ∧ (digitChar d).toNat - 48 = d ∧ digitChar d ≠ '/' ∧
      isWhiteSpace (digitChar d) = false ∧ digitChar d ≠ '-' ∧ digitChar d ≠ '+' := by
  interval_cases d <;> decide

theorem takeWhile_allDigits (l : List Char) (h : AllDigits l) :
    l.takeWhile Char.isDigit = l := by
  rw [List.takeWhile_eq_self_iff]
  intro c hc
  obtain ⟨d, hd, rfl⟩ := h c hc
  exact (digitChar_spec d hd).1

theorem parseInt_digits (c : Char) (cs : List Char) (h : AllDigits (c :: cs)) :
    parseInt (c :: cs) = some (toNumber (digitsValue (c :: cs) : Int)) := by
  obtain ⟨d, hd, hc⟩ := h c (List.mem_cons_self _ _)
  obtain ⟨-, -, -, hw, hm, hp⟩ := digitChar_spec d hd
  rw [← hc] at hw hm hp
  have htw := takeWhile_allDigits _ h
  unfold parseInt
  rw [List.dropWhile_cons_of_neg (by simp [hw])]
  simp only [stripSign, hm, hp, if_false, htw]
  simp

theorem parseInt_minus_digits (c : Char) (cs : List Char) (h : AllDigits (c :: cs)) :
    parseInt ('-' :: c :: cs) = some (toNumber (-(digitsValue (c :: cs) : Int))) := by
  have htw := takeWhile_allDigits _ h
  unfold parseInt
  rw [List.dropWhile_cons_of_neg (by decide)]
  simp only [stripSign, if_true, htw]
  simp

theorem digitsValue_snoc (l : List Char) (c : Char) :
    digitsValue (l ++ [c]) = 10 * digitsValue l + (c.toNat - 48) := by
  simp [digitsValue, List.foldl_append]

theorem digitsValue_digits (ds : List Nat) (h : ∀ d ∈ ds, d < 10) :
    digitsValue (ds.reverse.map digitChar) = Nat.ofDigits 10 ds := by
  induction ds with
  | nil => rfl
  | cons d t ih =>
    have hd := (digitChar_spec d (h d (List.mem_cons_self _ _))).2.1
    rw [List.reverse_cons, List.map_append, List.map_singleton, digitsValue_snoc,
      ih (fun x hx => h x (List.mem_cons_of_mem _ hx)), hd, Nat.ofDigits_cons]
    omega

theorem natDecimal_allDigits (n : Nat) : AllDigits (natDecimal n) := by
  intro c hc
  unfold natDecimal at hc
  split at hc
  · simp only [List.mem_singleton] at hc
    exact ⟨0, by decide, by rw [hc]; rfl⟩
  · simp only [List.mem_map, List.mem_reverse] at hc
    obtain ⟨d, hd, rfl⟩ := hc
    exact ⟨d, Nat.digits_lt_base (by decide) hd, rfl⟩

theorem natDecimal_ne_nil (n : Nat) : natDecimal n ≠ [] := by
  unfold natDecimal
  split
  · simp
  · rename_i h
    intro e
    rw [List.map_eq_nil_iff, List.reverse_eq_nil_iff] at e
    exact h (Nat.digits_eq_nil_iff_eq_zero.mp e)

theorem digitsValue_natDecimal (n : Nat) : digitsValue (natDecimal n) = n := by
  unfold natDecimal
  split
  · rename_i h; rw [h]; rfl
  · rw [digitsValue_digits _ (fun d hd => Nat.digits_lt_base (by decide) hd),
      Nat.ofDigits_digits]

theorem parseInt_natDecimal (n : Nat) :
    parseInt (natDecimal n) = some (toNumber (n : Int)) := by
  have h := natDecimal_allDigits n
  have hv := digitsValue_natDecimal n
  cases hl : natDecimal n with
  | nil => exact absurd hl (natDecimal_ne_nil n)
  | cons c cs =>
    rw [hl] at h hv
    rw [parseInt_digits c cs h, hv]

/-- Reading the decimal text of an integer gives the number that the integer denotes. -/
theorem parseInt_decimal (i : Int) : parseInt (decimal i) = some (toNumber i) := by
  cases i with
  | ofNat n => exact parseInt_natDecimal n
  | negSucc n =>
    have h := natDecimal_allDigits (n + 1)
    have hv := digitsValue_natDecimal (n + 1)
    show parseInt ('-' :: natDecimal (n + 1)) = _
    cases hl : natDecimal (n + 1) with
    | nil => exact absurd hl (natDecimal_ne_nil _)
    | cons c cs =>
      rw [hl] at h hv
      rw [parseInt_minus_digits c cs h, hv]
      rfl

theorem decimal_ne_nil (i : Int) : decimal i ≠ [] := by
  cases i with
  | ofNat n => exact natDecimal_ne_nil n
  | negSucc n => exact List.cons_ne_nil _ _

theorem slash_not_mem_decimal (i : Int) : '/' ∉ decimal i := by
  have key : ∀ n, '/' ∉ natDecimal n := by
    intro n hmem
    obtain ⟨d, hd, e⟩ := natDecimal_allDigits n _ hmem
    exact (digitChar_spec d hd).2.2.1 e.symm
  cases i with
  | ofNat n => exact key n
  | negSucc n =>
    show '/' ∉ '-' :: natDecimal (n + 1)
    simp only [List.mem_cons, not_or]
    exact ⟨by decide, key _⟩

/-! ## The router on the paths of the API -/

theorem parts_programmePath (id : Int) :
    parts (programmePath id) = ["api".toList, "programmes".toList, decimal id] := by
  show parts ('/' :: ("api".toList ++ '/' :: ("programmes".toList ++ '/' :: decimal id))) = _
  rw [parts_sep, parts_segment _ _ (by decide) (by decide),
    parts_segment _ _ (by decide) (by decide),
    parts_last _ (slash_not_mem_decimal id) (decimal_ne_nil id)]

theorem parts_programmeModulesPath (id : Int) :
    parts (programmeModulesPath id)
      = ["api".toList, "programmes".toList, decimal id, "modules".toList] := by
  show parts ('/' :: ("api".toList ++ '/' :: ("programmes".toList ++
    '/' :: (decimal id ++ '/' :: "modules".toList)))) = _
  rw [parts_sep, parts_segment _ _ (by decide) (by decide),
    parts_segment _ _ (by decide) (by decide),
    parts_segment _ _ (slash_not_mem_decimal id) (decimal_ne_nil id),
    parts_last _ (by decide) (by decide)]

theorem parts_modulePath (id : Int) :
    parts (modulePath id) = ["api".toList, "modules".toList, decimal id] := by
  show parts ('/' :: ("api".toList ++ '/' :: ("modules".toList ++ '/' :: decimal id))) = _
  rw [parts_sep, parts_segment _ _ (by decide) (by decide),
    parts_segment _ _ (by decide) (by decide),
    parts_last _ (slash_not_mem_decimal id) (decimal_ne_nil id)]

theorem parts_moduleTasksPath (id : Int) :
    parts (moduleTasksPath id)
      = ["api".toList, "modules".toList, decimal id, "tasks".toList] := by
  show parts ('/' :: ("api".toList ++ '/' :: ("modules".toList ++
    '/' :: (decimal id ++ '/' :: "tasks".toList)))) = _
  rw [parts_sep, parts_segment _ _ (by decide) (by decide),
    parts_segment _ _ (by decide) (by decide),
    parts_segment _ _ (slash_not_mem_decimal id) (decimal_ne_nil id),
    parts_last _ (by decide) (by decide)]

theorem startsWith_api (rest : List Char) :
    startsWith ("/api/".toList ++ rest) "/api".toList = true := by
  show startsWith ('/' :: 'a' :: 'p' :: 'i' :: '/' :: rest) ['/', 'a', 'p', 'i'] = true
  simp [startsWith]

theorem ne_data_path (c : Char) (rest : List Char) (h : c ≠ 'd') :
    '/' :: 'a' :: 'p' :: 'i' :: '/' :: c :: rest ≠ "/api/data".toList := by
  intro e
  have e' : '/' :: 'a' :: 'p' :: 'i' :: '/' :: c :: rest
      = '/' :: 'a' :: 'p' :: 'i' :: '/' :: 'd' :: "ata".toList := e
  simp only [List.cons.injEq, true_and] at e'
  exact h e'.1

/-- The router on a request that reaches the API routes, in terms of its route. -/
theorem router_of_route (maxSpread : Nat) (data : Store) (method : String)
    (pathname : List Char) (body : Option JVal) (route : List (List Char))
    (hm : method ≠ "OPTIONS") (hs : startsWith pathname "/api".toList = true)
    (hd : ¬ (method = "GET" ∧ pathname = "/api/data".toList))
    (hr : (parts pathname).drop 1 = route) :
    router maxSpread data ⟨method, pathname, body⟩ =
      match programmesRoutes maxSpread data ⟨method, pathname, body⟩ route with
      | some result => result
      | none =>
        match modulesRoutes maxSpread data ⟨method, pathname, body⟩ route with
        | some result => result
        | none => (.json 404 (.error "Not Found"), data) := by
  unfold router
  rw [if_neg hm, if_pos hs]
  simp only [hr]
  rw [if_neg hd]

theorem router_postProgramme (maxSpread : Nat) (data : Store) (body : Option JVal) :
    router maxSpread data ⟨"POST", "/api/programmes".toList, body⟩
      = postProgramme maxSpread data body := by
  rw [router_of_route maxSpread data "POST" "/api/programmes".toList body
    ["programmes".toList] (by decide) (by decide) (by decide) (by decide)]
  simp [programmesRoutes]

theorem router_getProgramme (maxSpread : Nat) (data : Store) (id : Int)
    (body : Option JVal) :
    router maxSpread data ⟨"GET", programmePath id, body⟩
      = getProgramme data (toNumber id) := by
  rw [router_of_route maxSpread data "GET" (programmePath id) body
    ["programmes".toList, decimal id] (by decide) (startsWith_api _)
    (fun h => ne_data_path 'p' _ (by decide) h.2) (by simp [parts_programmePath])]
  simp [programmesRoutes, extractId, parseInt_decimal]

theorem router_postModule (maxSpread : Nat) (data : Store) (id : Int) (body : Option JVal) :
    router maxSpread data ⟨"POST", programmeModulesPath id, body⟩
      = postModule maxSpread data (toNumber id) body := by
  rw [router_of_route maxSpread data "POST" (programmeModulesPath id) body
    ["programmes".toList, decimal id, "modules".toList] (by decide)
    (startsWith_api _) (fun h => absurd h.1 (by decide))
    (by simp [parts_programmeModulesPath])]
  simp [programmesRoutes, extractId, parseInt_decimal]

theorem router_getModule (maxSpread : Nat) (data : Store) (id : Int) (body : Option JVal) :
    router maxSpread data ⟨"GET", modulePath id, body⟩ = getModule data (toNumber id) := by
  rw [router_of_route maxSpread data "GET" (modulePath id) body
    ["modules".toList, decimal id] (by decide) (startsWith_api _)
    (fun h => ne_data_path 'm' _ (by decide) h.2) (by simp [parts_modulePath])]
  simp [programmesRoutes, modulesRoutes, extractId, parseInt_decimal]

theorem router_postTask (maxSpread : Nat) (data : Store) (id : Int) (body : Option JVal) :
    router maxSpread data ⟨"POST", moduleTasksPath id, body⟩
      = postTask maxSpread data (toNumber id) body := by
  rw [router_of_route maxSpread data "POST" (moduleTasksPath id) body
    ["modules".toList, decimal id, "tasks".toList] (by decide)
    (startsWith_api _) (fun h => absurd h.1 (by decide)) (by simp [parts_moduleTasksPath])]
  simp [programmesRoutes, modulesRoutes, extractId, parseInt_decimal]

/-! ## Id assignment -/

theorem foldl_max_spec (rest : List Int) (i : Int) :
    rest.foldl max i ∈ i :: rest ∧ ∀ j ∈ i :: rest, j ≤ rest.foldl max i := by
  induction rest generalizing i with
  | nil => simp
  | cons x xs ih =>
    obtain ⟨hmem, hle⟩ := ih (max i x)
    simp only [List.foldl_cons]
    constructor
    · rcases List.mem_cons.mp hmem with h | h
      · rw [h]
        rcases max_choice i x with e | e
        · rw [e]; exact List.mem_cons_self _ _
        · rw [e]; exact List.mem_cons_of_mem _ (List.mem_cons_self _ _)
      · exact List.mem_cons_of_mem _ (List.mem_cons_of_mem _ h)
    · intro j hj
      have hmax := hle (max i x) (List.mem_cons_self _ _)
      rcases List.mem_cons.mp hj with h | h
      · rw [h]; exact le_trans (le_max_left _ _) hmax
      · rcases List.mem_cons.mp h with h | h
        · rw [h]; exact le_trans (le_max_right _ _) hmax
        · exact hle j (List.mem_cons_of_mem _ h)

/-- On a non-empty list of safe integers that the spread can pass, the new id is one more
than the greatest of them. -/
theorem newId_spec (maxSpread : Nat) (ids : List Int) (h : ids ≠ [])
    (hlen : ids.length ≤ maxSpread) (hsafe : ∀ i ∈ ids, SafeInteger i) :
    ∃ m ∈ ids, (∀ i ∈ ids, i ≤ m) ∧ newId maxSpread ids = some (m + 1) := by
  cases ids with
  | nil => exact absurd rfl h
  | cons i rest =>
    obtain ⟨hmem, hle⟩ := foldl_max_spec rest i
    refine ⟨_, hmem, hle, ?_⟩
    have hs := hsafe _ hmem
    have hnl : ¬ maxSpread < (i :: rest).length := by omega
    have hr := roundDouble_of_abs_le (rest.foldl max i + 1)
      ⟨by have := hs.1; omega, by have := hs.2; omega⟩
    simp only [newId]
    rw [if_neg hnl, hr]

theorem newId_nil (maxSpread : Nat) : newId maxSpread [] = some 1 := rfl

/-- The spread throws when there are more ids than it can pass. -/
theorem newId_rangeError (maxSpread : Nat) (ids : List Int) (h : maxSpread < ids.length) :
    newId maxSpread ids = none := by
  cases ids with
  | nil => simp at h
  | cons i rest =>
    simp only [newId]
    rw [if_pos h]

/-- The new id is greater than every id of a list of safe integers. -/
theorem lt_newId (maxSpread : Nat) (ids : List Int) (k : Int)
    (hsafe : ∀ i ∈ ids, SafeInteger i) (hk : newId maxSpread ids = some k) :
    ∀ i ∈ ids, i < k := by
  intro i hi
  have hne : ids ≠ [] := List.ne_nil_of_mem hi
  have hlen : ids.length ≤ maxSpread := by
    cases ids with
    | nil => exact absurd rfl hne
    | cons j rest =>
      by_contra hcon
      have hlt : maxSpread < (j :: rest).length := by omega
      simp only [newId] at hk
      rw [if_pos hlt] at hk
      cases hk
  obtain ⟨m, -, hle, e⟩ := newId_spec maxSpread ids hne hlen hsafe
  rw [e] at hk
  cases hk
  have := hle i hi
  omega

/-- The id that `newId` gives to a new sibling of the entities `l`, whose ids are safe
integers and which the spread can pass: 1 when there is none, and otherwise one more than the
greatest of their ids. -/
theorem newId_map {α : Type} (f : α → Int) (maxSpread : Nat) (l : List α)
    (hlen : l.length ≤ maxSpread) (hsafe : ∀ q ∈ l, SafeInteger (f q)) :
    ∃ k, newId maxSpread (l.map f) = some k ∧ (l = [] → k = 1)
      ∧ (l ≠ [] → ∃ q ∈ l, (∀ r ∈ l, f r ≤ f q) ∧ k = f q + 1) := by
  by_cases hl : l = []
  · subst hl
    exact ⟨1, rfl, fun _ => rfl, fun h => absurd rfl h⟩
  · obtain ⟨m, hm, hle, e⟩ := newId_spec maxSpread (l.map f) (by simpa using hl)
      (by simpa using hlen)
      (by
        intro i hi
        obtain ⟨q, hq, rfl⟩ := List.mem_map.mp hi
        exact hsafe q hq)
    obtain ⟨q, hq, rfl⟩ := List.mem_map.mp hm
    exact ⟨f q + 1, e, fun h => absurd h hl,
      fun _ => ⟨q, hq, fun r hr => hle (f r) (List.mem_map_of_mem _ hr), rfl⟩⟩

/-! ## Creating a programme -/

/-- C1, as the code has it: on every store whose programme ids are safe integers (magnitude
below `2^53`) and whose programmes the spread of `Math.max` can pass, `POST /api/programmes`
with a JSON object whose `name` is a non-empty string answers 201 with the programme
`{id, name, modules: []}`, where `id` is 1 on a store without programmes and otherwise one
more than the greatest programme id, and the persisted list is the old list followed by that
programme. -/
theorem C1_postProgramme_created (maxSpread : Nat) (data : Store)
    (members : List (String × JVal)) (n : String)
    (hname : (JVal.obj members).prop "name" = some (.str n)) (hn : n ≠ "")
    (hlen : data.programmes.length ≤ maxSpread)
    (hsafe : ∀ q ∈ data.programmes, SafeInteger q.id) :
    ∃ p : Programme,
      router maxSpread data ⟨"POST", "/api/programmes".toList, some (.obj members)⟩
        = (.json 201 (.programme p), { programmes := data.programmes ++ [p] })
      ∧ p.name = .str n ∧ p.modules = []
      ∧ (data.programmes = [] → p.id = 1)
      ∧ (data.programmes ≠ [] →
          ∃ q ∈ data.programmes, (∀ r ∈ data.programmes, r.id ≤ q.id) ∧ p.id = q.id + 1) := by
  obtain ⟨k, hk, h1, h2⟩ := newId_map (fun p : Programme => p.id) maxSpread data.programmes
    hlen hsafe
  refine ⟨{ id := k, name := .str n, modules := [] }, ?_, rfl, rfl, h1, h2⟩
  rw [router_postProgramme]
  simp [postProgramme, hname, JVal.truthy, JVal.isString, hn, hk]

/-- C1 (as amended) on a store with the programmes 3 and 7: the new programme gets id 8. -/
theorem C1_postProgramme_created_witness :
    ∃ p : Programme,
      router 100000 ⟨[⟨3, .str "Alpha", []⟩, ⟨7, .str "Beta", []⟩]⟩
          ⟨"POST", "/api/programmes".toList, some (.obj [("name", .str "Launch")])⟩
        = (.json 201 (.programme p),
            { programmes := [⟨3, .str "Alpha", []⟩, ⟨7, .str "Beta", []⟩] ++ [p] })
      ∧ p.name = .str "Launch" ∧ p.modules = [] ∧ p.id = 8 := by
  obtain ⟨p, h1, h2, h3, -, h5⟩ := C1_postProgramme_created 100000
    ⟨[⟨3, .str "Alpha", []⟩, ⟨7, .str "Beta", []⟩]⟩ [("name", .str "Launch")] "Launch" rfl
    (by decide) (by simp) (by simp [SafeInteger])
  obtain ⟨q, hq, hmax, e⟩ := h5 (by simp)
  refine ⟨p, h1, h2, h3, ?_⟩
  simp only [List.mem_cons, List.mem_singleton, List.not_mem_nil, or_false] at hq
  have h7 := hmax ⟨7, .str "Beta", []⟩ (by simp)
  rcases hq with rfl | rfl
  · simp at h7
  · rw [e]; rfl

/-- With more programmes than the spread can pass, a valid `POST /api/programmes` is answered
by the `catch` block: 400 `{error: "Invalid JSON"}`, store unchanged. -/
theorem router_postProgramme_rangeError (maxSpread : Nat) (data : Store)
    (members : List (String × JVal)) (n : String)
    (hname : (JVal.obj members).prop "name" = some (.str n)) (hn : n ≠ "")
    (hlong : maxSpread < data.programmes.length) :
    router maxSpread data ⟨"POST", "/api/programmes".toList, some (.obj members)⟩
      = (.json 400 (.error "Invalid JSON"), data) := by
  have hk := newId_rangeError maxSpread (data.programmes.map (fun p => p.id))
    (by simpa using hlong)
  rw [router_postProgramme]
  simp [postProgramme, hname, JVal.truthy, JVal.isString, hn, hk, invalidJSON]

/-- C1 as stated fails in two ways. Where `Math.max(...ids) + 1` is not exact: on a store
whose only programme has id `2^53 = 9007199254740992` the new programme gets the id `2^53`
again, because `2^53 + 1` is not a double and rounds back to `2^53`. And where the spread
throws: on an engine that passes at most 100000 arguments, the store with the programmes 1 to
100001 gets 400 `{error: "Invalid JSON"}` and stays as it was. -/
theorem C1_counterexample :
    (router 100000 ⟨[⟨9007199254740992, .str "Alpha", []⟩]⟩
        ⟨"POST", "/api/programmes".toList, some (.obj [("name", .str "Launch")])⟩
      = (.json 201 (.programme ⟨9007199254740992, .str "Launch", []⟩),
          ⟨[⟨9007199254740992, .str "Alpha", []⟩, ⟨9007199254740992, .str "Launch", []⟩]⟩)
      ∧ (9007199254740992 : Int) ≠ 9007199254740992 + 1)
    ∧ router 100000
        ⟨(List.range 100001).map (fun (i : Nat) => (⟨(i : Int) + 1, .str "p", []⟩ : Programme))⟩
        ⟨"POST", "/api/programmes".toList, some (.obj [("name", .str "Launch")])⟩
      = (.json 400 (.error "Invalid JSON"),
          ⟨(List.range 100001).map (fun (i : Nat) => (⟨(i : Int) + 1, .str "p", []⟩ : Programme))⟩) :=
  ⟨⟨rfl, by decide⟩,
    router_postProgramme_rangeError 100000 _ [("name", .str "Launch")] "Launch" rfl
      (by decide) (by simp)⟩

theorem postProgramme_invalid_name (maxSpread : Nat) (data : Store) (body : Option JVal)
    (h : ∀ n : String, fieldOf "name" body = some (.str n) → n = "") :
    postProgramme maxSpread data body = (invalidJSON, data)
      ∨ postProgramme maxSpread data body
          = (.json 400 (.error "Name is required"), data) := by
  unfold postProgramme
  cases body with
  | none => exact Or.inl rfl
  | some parsed =>
    cases parsed with
    | null => exact Or.inl rfl
    | obj members =>
      right
      simp only [fieldOf, Option.bind] at h
      cases hp : (JVal.obj members).prop "name" with
      | none => simp [hp]
      | some name =>
        cases name with
        | str s =>
          have hs := h s hp
          subst hs
          simp [hp, JVal.truthy]
        | _ => simp [hp, JVal.truthy, JVal.isString]
    | _ => right; simp [JVal.prop]

/-- C2: on every store, `POST /api/programmes` with a body whose `name` is missing, is the
empty string or is not a string answers 400 and leaves the persisted store as it was. -/
theorem C2_postProgramme_invalid_name (maxSpread : Nat) (data : Store) (body : Option JVal)
    (h : ∀ n : String, fieldOf "name" body = some (.str n) → n = "") :
    ∃ message : String,
      router maxSpread data ⟨"POST", "/api/programmes".toList, body⟩
        = (.json 400 (.error message), data) := by
  rw [router_postProgramme]
  rcases postProgramme_invalid_name maxSpread data body h with e | e
  · exact ⟨_, e⟩
  · exact ⟨_, e⟩

/-- C2 at a body whose `name` is a number. -/
theorem C2_postProgramme_invalid_name_witness :
    ∃ message : String,
      router 100000 ⟨[⟨1, .str "Launch", []⟩]⟩
        ⟨"POST", "/api/programmes".toList, some (.obj [("name", .num 5)])⟩
        = (.json 400 (.error message), ⟨[⟨1, .str "Launch", []⟩]⟩) :=
  C2_postProgramme_invalid_name 100000 ⟨[⟨1, .str "Launch", []⟩]⟩
    (some (.obj [("name", .num 5)])) (by intro n hn; simp [fieldOf, JVal.prop] at hn)

/-! ## First matches -/

theorem find?_first {α : Type} (p : α → Bool) (pre post : List α) (x : α)
    (hpre : ∀ y ∈ pre, p y = false) (hx : p x = true) :
    (pre ++ x :: post).find? p = some x := by
  induction pre with
  | nil => simp [hx]
  | cons y ys ih =>
    have hy := hpre y (List.mem_cons_self _ _)
    simp only [List.cons_append, List.find?_cons, hy]
    exact ih (fun z hz => hpre z (List.mem_cons_of_mem _ hz))

theorem updateFirst_first {α : Type} (p : α → Bool) (f : α → α) (pre post : List α) (x : α)
    (hpre : ∀ y ∈ pre, p y = false) (hx : p x = true) :
    updateFirst p f (pre ++ x :: post) = pre ++ f x :: post := by
  induction pre with
  | nil => simp [updateFirst, hx]
  | cons y ys ih =>
    have hy := hpre y (List.mem_cons_self _ _)
    have e := ih (fun z hz => hpre z (List.mem_cons_of_mem _ hz))
    show updateFirst p f (y :: (ys ++ x :: post)) = y :: (ys ++ f x :: post)
    rw [updateFirst, hy, if_neg (by simp), e]

theorem find?_split {α : Type} (p : α → Bool) (l : List α) (x : α)
    (h : l.find? p = some x) :
    p x = true ∧ ∃ pre post, l = pre ++ x :: post ∧ ∀ y ∈ pre, p y = false := by
  obtain ⟨hx, pre, post, e, hpre⟩ := List.find?_eq_some.mp h
  exact ⟨hx, pre, post, e, fun y hy => by simpa using hpre y hy⟩

theorem ne_of_nodup_map {α : Type} (f : α → Int) (pre post : List α) (x : α)
    (h : ((pre ++ x :: post).map f).Nodup) : ∀ y ∈ pre, f y ≠ f x := by
  rw [List.map_append, List.nodup_append] at h
  intro y hy e
  exact h.2.2 (List.mem_map_of_mem f hy) (by rw [e]; simp)

theorem findModule_first (moduleId : Number) (pre post : List Programme) (P : Programme)
    (M : Module)
    (hpre : ∀ q ∈ pre, q.modules.find? (fun m => Number.int m.id == moduleId) = none)
    (hP : P.modules.find? (fun m => Number.int m.id == moduleId) = some M) :
    findModule moduleId (pre ++ P :: post) = some (P, M) := by
  induction pre with
  | nil => simp [findModule, hP]
  | cons q qs ih =>
    have hq := hpre q (List.mem_cons_self _ _)
    simp only [List.cons_append, findModule, hq]
    exact ih (fun z hz => hpre z (List.mem_cons_of_mem _ hz))

theorem findModule_eq_none (moduleId : Number) (ps : List Programme) :
    findModule moduleId ps = none
      ↔ ∀ p ∈ ps, ∀ m ∈ p.modules, Number.int m.id ≠ moduleId := by
  induction ps with
  | nil => simp [findModule]
  | cons q qs ih =>
    unfold findModule
    cases hq : q.modules.find? (fun m => Number.int m.id == moduleId) with
    | some m =>
      simp only [List.mem_cons, forall_eq_or_imp]
      constructor
      · intro h
        cases h
      · intro hall
        have hm := List.find?_some hq
        exact absurd (by simpa using hm) (hall.1 m (List.mem_of_find?_eq_some hq))
    | none =>
      simp only [List.mem_cons, forall_eq_or_imp, ih]
      rw [List.find?_eq_none] at hq
      constructor
      · intro h
        exact ⟨fun m hm => by simpa using hq m hm, h⟩
      · intro h
        exact h.2

theorem findModule_split (moduleId : Number) (ps : List Programme) (P : Programme)
    (M : Module) (h : findModule moduleId ps = some (P, M)) :
    ∃ pre post, ps = pre ++ P :: post
      ∧ (∀ q ∈ pre, q.modules.find? (fun m => Number.int m.id == moduleId) = none)
      ∧ P.modules.find? (fun m => Number.int m.id == moduleId) = some M := by
  induction ps with
  | nil => simp [findModule] at h
  | cons q qs ih =>
    unfold findModule at h
    cases hq : q.modules.find? (fun m => Number.int m.id == moduleId) with
    | some m =>
      rw [hq] at h
      simp only [Option.some.injEq, Prod.mk.injEq] at h
      obtain ⟨rfl, rfl⟩ := h
      exact ⟨[], qs, rfl, by simp, hq⟩
    | none =>
      rw [hq] at h
      obtain ⟨pre, post, e, hpre, hP⟩ := ih h
      refine ⟨q :: pre, post, by rw [e]; rfl, ?_, hP⟩
      intro z hz
      rcases List.mem_cons.mp hz with rfl | hz
      · exact hq
      · exact hpre z hz

/-! ## Creating a module -/

theorem fieldOf_some (key : String) (body : Option JVal) (v : JVal)
    (h : fieldOf key body = some v) :
    ∃ members, body = some (.obj members) ∧ (JVal.obj members).prop key = some v := by
  cases body with
  | none => simp [fieldOf] at h
  | some parsed =>
    cases parsed with
    | obj members => exact ⟨members, rfl, h⟩
    | _ => simp [fieldOf, JVal.prop] at h

theorem postModule_created (maxSpread : Nat) (data : Store) (id : Number)
    (programme : Programme) (body : Option JVal) (n : String) (k : Int)
    (hfind : data.programmes.find? (fun p => Number.int p.id == id) = some programme)
    (hname : fieldOf "name" body = some (.str n)) (hn : n ≠ "")
    (hk : newId maxSpread (programme.modules.map (fun m => m.id)) = some k) :
    postModule maxSpread data id body =
      (.json 201 (.module ⟨k, .str n, []⟩),
        { programmes := updateFirst (fun p => Number.int p.id == id)
            (pushModule ⟨k, .str n, []⟩) data.programmes }) := by
  obtain ⟨members, rfl, hp⟩ := fieldOf_some _ _ _ hname
  simp [postModule, hfind, hp, JVal.truthy, JVal.isString, hn, hk]

theorem postModule_invalid_name (maxSpread : Nat) (data : Store) (id : Number)
    (programme : Programme) (body : Option JVal)
    (hfind : data.programmes.find? (fun p => Number.int p.id == id) = some programme)
    (h : ∀ n : String, fieldOf "name" body = some (.str n) → n = "") :
    postModule maxSpread data id body = (invalidJSON, data)
      ∨ postModule maxSpread data id body
          = (.json 400 (.error "Module name is required"), data) := by
  unfold postModule
  rw [hfind]
  cases body with
  | none => exact Or.inl rfl
  | some parsed =>
    cases parsed with
    | null => exact Or.inl rfl
    | obj members =>
      right
      simp only [fieldOf, Option.bind] at h
      cases hp : (JVal.obj members).prop "name" with
      | none => simp [hp]
      | some name =>
        cases name with
        | str s =>
          have hs := h s hp
          subst hs
          simp [hp, JVal.truthy]
        | _ => simp [hp, JVal.truthy, JVal.isString]
    | _ => right; simp [JVal.prop]

theorem postModule_rangeError (maxSpread : Nat) (data : Store) (id : Number)
    (programme : Programme) (body : Option JVal) (n : String)
    (hfind : data.programmes.find? (fun p => Number.int p.id == id) = some programme)
    (hname : fieldOf "name" body = some (.str n)) (hn : n ≠ "")
    (hlong : maxSpread < programme.modules.length) :
    postModule maxSpread data id body = (.json 400 (.error "Invalid JSON"), data) := by
  obtain ⟨members, rfl, hp⟩ := fieldOf_some _ _ _ hname
  have hk := newId_rangeError maxSpread (programme.modules.map (fun m => m.id))
    (by simpa using hlong)
  simp [postModule, hfind, hp, JVal.truthy, JVal.isString, hn, hk, invalidJSON]

/-- C3, as the code has it: on a store whose programme ids are pairwise distinct, for a
programme `P` whose id and whose module ids are safe integers (magnitude below `2^53`) and whose
modules the spread of `Math.max` can pass, and for a non-empty string `name`,
`POST /api/programmes/<P.id>/modules` answers 201 with the module `{id, name, tasks: []}`,
where `id` is 1 if `P` has no modules and otherwise one more than the greatest module id
of `P`, and a following `GET /api/programmes/<P.id>` answers 200 with `P` whose modules list
is the previous one followed by the new module. -/
theorem C3_postModule_then_get (maxSpread : Nat) (pre post : List Programme) (P : Programme)
    (body : Option JVal) (n : String)
    (hunique : ((pre ++ P :: post).map (fun p => p.id)).Nodup)
    (hid : SafeInteger P.id)
    (hlen : P.modules.length ≤ maxSpread)
    (hsafe : ∀ q ∈ P.modules, SafeInteger q.id)
    (hname : fieldOf "name" body = some (.str n)) (hn : n ≠ "") :
    ∃ m : Module,
      router maxSpread ⟨pre ++ P :: post⟩ ⟨"POST", programmeModulesPath P.id, body⟩
        = (.json 201 (.module m), ⟨pre ++ pushModule m P :: post⟩)
      ∧ m.name = .str n ∧ m.tasks = []
      ∧ (P.modules = [] → m.id = 1)
      ∧ (P.modules ≠ [] →
          ∃ q ∈ P.modules, (∀ r ∈ P.modules, r.id ≤ q.id) ∧ m.id = q.id + 1)
      ∧ (pushModule m P).id = P.id ∧ (pushModule m P).name = P.name
      ∧ (pushModule m P).modules = P.modules ++ [m]
      ∧ ∀ body' : Option JVal,
          router maxSpread ⟨pre ++ pushModule m P :: post⟩ ⟨"GET", programmePath P.id, body'⟩
            = (.json 200 (.programme (pushModule m P)), ⟨pre ++ pushModule m P :: post⟩) := by
  have hnum : toNumber P.id = Number.int P.id := isDouble_of_safe _ hid
  have hpre : ∀ y ∈ pre, (fun p : Programme => Number.int p.id == Number.int P.id) y = false := by
    intro y hy
    simpa using ne_of_nodup_map (fun p : Programme => p.id) pre post P hunique y hy
  obtain ⟨k, hk, h1, h2⟩ := newId_map (fun m : Module => m.id) maxSpread P.modules hlen hsafe
  refine ⟨⟨k, .str n, []⟩, ?_, rfl, rfl, h1, h2, rfl, rfl, rfl, ?_⟩
  · rw [router_postModule, hnum,
      postModule_created _ _ _ P body n k (find?_first _ pre post P hpre (by simp)) hname hn hk]
    simp only
    rw [updateFirst_first _ _ pre post P hpre (by simp)]
  · intro body'
    rw [router_getProgramme, hnum]
    unfold getProgramme
    simp only
    rw [find?_first (fun p : Programme => Number.int p.id == Number.int P.id) pre post _ hpre
      (by simp [pushModule])]

/-- C3 (as amended) on the second of three programmes, which has the modules 1 and 5: the
new module gets id 6. -/
theorem C3_postModule_then_get_witness :
    ∃ m : Module,
      router 100000
          ⟨[⟨1, .str "Alpha", []⟩] ++
            (⟨2, .str "Beta", [⟨1, .str "a", []⟩, ⟨5, .str "b", []⟩]⟩ : Programme) ::
            [⟨3, .str "Gamma", []⟩]⟩
          ⟨"POST", programmeModulesPath 2, some (.obj [("name", .str "Design")])⟩
        = (.json 201 (.module m),
            ⟨[⟨1, .str "Alpha", []⟩] ++
              pushModule m ⟨2, .str "Beta", [⟨1, .str "a", []⟩, ⟨5, .str "b", []⟩]⟩ ::
              [⟨3, .str "Gamma", []⟩]⟩)
      ∧ m.name = .str "Design" ∧ m.tasks = [] ∧ m.id = 6 := by
  obtain ⟨m, h1, h2, h3, -, h5, -⟩ := C3_postModule_then_get 100000
    [⟨1, .str "Alpha", []⟩] [⟨3, .str "Gamma", []⟩]
    ⟨2, .str "Beta", [⟨1, .str "a", []⟩, ⟨5, .str "b", []⟩]⟩
    (some (.obj [("name", .str "Design")])) "Design"
    (by simp) (by simp [SafeInteger]) (by simp) (by simp [SafeInteger]) rfl (by decide)
  obtain ⟨q, hq, hmax, e⟩ := h5 (by simp)
  refine ⟨m, h1, h2, h3, ?_⟩
  simp only [List.mem_cons, List.mem_singleton, List.not_mem_nil, or_false] at hq
  have h5' := hmax ⟨5, .str "b", []⟩ (by simp)
  rcases hq with rfl | rfl
  · simp at h5'
  · rw [e]; rfl

/-- C3 as stated fails in two ways. Where `Math.max(...ids) + 1` is not exact: when the only
module of programme 1 has id `2^53 = 9007199254740992`, the new module gets the id `2^53`
again, not `2^53 + 1`, and the following GET shows two modules with that id. And where the
spread throws: on an engine that passes at most 100000 arguments, a programme with the modules
1 to 100001 gets 400 `{error: "Invalid JSON"}` and no new module. -/
theorem C3_counterexample :
    (router 100000 ⟨[⟨1, .str "Launch", [⟨9007199254740992, .str "M", []⟩]⟩]⟩
        ⟨"POST", "/api/programmes/1/modules".toList, some (.obj [("name", .str "Design")])⟩
      = (.json 201 (.module ⟨9007199254740992, .str "Design", []⟩),
          ⟨[⟨1, .str "Launch",
            [⟨9007199254740992, .str "M", []⟩, ⟨9007199254740992, .str "Design", []⟩]⟩]⟩)
    ∧ router 100000 ⟨[⟨1, .str "Launch",
            [⟨9007199254740992, .str "M", []⟩, ⟨9007199254740992, .str "Design", []⟩]⟩]⟩
        ⟨"GET", "/api/programmes/1".toList, none⟩
      = (.json 200 (.programme ⟨1, .str "Launch",
            [⟨9007199254740992, .str "M", []⟩, ⟨9007199254740992, .str "Design", []⟩]⟩),
          ⟨[⟨1, .str "Launch",
            [⟨9007199254740992, .str "M", []⟩, ⟨9007199254740992, .str "Design", []⟩]⟩]⟩)
    ∧ (9007199254740992 : Int) ≠ 9007199254740992 + 1)
    ∧ router 100000
        ⟨[⟨1, .str "Launch",
          (List.range 100001).map (fun (i : Nat) => (⟨(i : Int) + 1, .str "m", []⟩ : Module))⟩]⟩
        ⟨"POST", programmeModulesPath 1, some (.obj [("name", .str "Design")])⟩
      = (.json 400 (.error "Invalid JSON"),
          ⟨[⟨1, .str "Launch",
            (List.range 100001).map (fun (i : Nat) => (⟨(i : Int) + 1, .str "m", []⟩ : Module))⟩]⟩) := by
  refine ⟨⟨rfl, rfl, by decide⟩, ?_⟩
  have hnum : toNumber 1 = Number.int 1 := isDouble_of_abs_le 1 (by decide)
  rw [router_postModule, hnum]
  exact postModule_rangeError 100000 _ _
    ⟨1, .str "Launch",
      (List.range 100001).map (fun (i : Nat) => (⟨(i : Int) + 1, .str "m", []⟩ : Module))⟩
    _ "Design" (by simp) rfl (by decide) (by simp)

/-! ## Fetching by id -/

theorem find?_id_eq_none (ps : List Programme) (id : Int) :
    ps.find? (fun p => Number.int p.id == Number.int id) = none ↔ ∀ p ∈ ps, p.id ≠ id := by
  rw [List.find?_eq_none]
  constructor
  · intro h p hp
    simpa using h p hp
  · intro h p hp
    simpa using h p hp

theorem getProgramme_spec (data : Store) (id : Int) :
    ((∀ p ∈ data.programmes, p.id ≠ id) ∧
        getProgramme data (.int id) = (.json 404 (.error "Programme not found"), data))
      ∨ ∃ p ∈ data.programmes, p.id = id ∧
          getProgramme data (.int id) = (.json 200 (.programme p), data) := by
  unfold getProgramme
  cases h : data.programmes.find? (fun p => Number.int p.id == Number.int id) with
  | none => exact Or.inl ⟨(find?_id_eq_none _ _).mp h, rfl⟩
  | some p =>
    exact Or.inr ⟨p, List.mem_of_find?_eq_some h, by simpa using List.find?_some h, rfl⟩

theorem getModule_spec (data : Store) (id : Int) :
    ((∀ p ∈ data.programmes, ∀ m ∈ p.modules, m.id ≠ id) ∧
        getModule data (.int id) = (.json 404 (.error "Module not found"), data))
      ∨ ∃ p ∈ data.programmes, ∃ m ∈ p.modules, m.id = id ∧
          getModule data (.int id) = (.json 200 (.moduleOf m p.id), data) := by
  unfold getModule
  cases h : findModule (.int id) data.programmes with
  | none =>
    refine Or.inl ⟨?_, rfl⟩
    intro p hp m hm e
    exact (findModule_eq_none _ _).mp h p hp m hm (by rw [e])
  | some found =>
    obtain ⟨P, M⟩ := found
    obtain ⟨pre, post, e, -, hM⟩ := findModule_split _ _ _ _ h
    exact Or.inr ⟨P, by rw [e]; simp, M, List.mem_of_find?_eq_some hM,
      by simpa using List.find?_some hM, rfl⟩

/-- C5, as the code has it: on every store and for every integer id that a JavaScript number
holds exactly (every id of magnitude up to `2^53` is one), `GET /api/programmes/<id>` answers
404 exactly when no programme has that id, then with an `error` body and the store untouched,
and otherwise answers 200 with a programme of the store that has that id;
`GET /api/modules/<id>` answers 404 exactly when no programme owns a module with that id,
then with an `error` body and the store untouched. -/
theorem C5_get_by_id (maxSpread : Nat) (data : Store) (id : Int) (body : Option JVal)
    (hid : IsDouble id) :
    ((router maxSpread data ⟨"GET", programmePath id, body⟩).1.status = some 404
        ↔ ∀ p ∈ data.programmes, p.id ≠ id)
    ∧ ((∀ p ∈ data.programmes, p.id ≠ id) →
        router maxSpread data ⟨"GET", programmePath id, body⟩
          = (.json 404 (.error "Programme not found"), data))
    ∧ ((∃ p ∈ data.programmes, p.id = id) →
        ∃ p ∈ data.programmes, p.id = id ∧
          router maxSpread data ⟨"GET", programmePath id, body⟩
            = (.json 200 (.programme p), data))
    ∧ ((router maxSpread data ⟨"GET", modulePath id, body⟩).1.status = some 404
        ↔ ∀ p ∈ data.programmes, ∀ m ∈ p.modules, m.id ≠ id)
    ∧ ((∀ p ∈ data.programmes, ∀ m ∈ p.modules, m.id ≠ id) →
        router maxSpread data ⟨"GET", modulePath id, body⟩
          = (.json 404 (.error "Module not found"), data)) := by
  have hnum : toNumber id = Number.int id := hid
  rw [router_getProgramme, router_getModule, hnum]
  refine ⟨?_, ?_, ?_, ?_, ?_⟩
  · rcases getProgramme_spec data id with ⟨hno, e⟩ | ⟨p, hp, hpid, e⟩
    · rw [e]; exact ⟨fun _ => hno, fun _ => rfl⟩
    · rw [e]
      constructor
      · intro h; simp [Response.status] at h
      · intro h; exact absurd hpid (h p hp)
  · intro hno
    rcases getProgramme_spec data id with ⟨-, e⟩ | ⟨p, hp, hpid, -⟩
    · exact e
    · exact absurd hpid (hno p hp)
  · rintro ⟨q, hq, hqid⟩
    rcases getProgramme_spec data id with ⟨hno, -⟩ | ⟨p, hp, hpid, e⟩
    · exact absurd hqid (hno q hq)
    · exact ⟨p, hp, hpid, e⟩
  · rcases getModule_spec data id with ⟨hno, e⟩ | ⟨p, hp, m, hm, hmid, e⟩
    · rw [e]; exact ⟨fun _ => hno, fun _ => rfl⟩
    · rw [e]
      constructor
      · intro h; simp [Response.status] at h
      · intro h; exact absurd hmid (h p hp m hm)
  · intro hno
    rcases getModule_spec data id with ⟨-, e⟩ | ⟨p, hp, m, hm, hmid, -⟩
    · exact e
    · exact absurd hmid (hno p hp m hm)

/-- C5 (as amended) on a store with the programmes 1 and 4: programme 4 is returned, and
module 9, which no programme owns, is not found. -/
theorem C5_get_by_id_witness :
    (∃ p ∈ [(⟨1, .str "Launch", [⟨2, .str "Design", []⟩]⟩ : Programme), ⟨4, .str "Beta", []⟩],
        p.id = 4 ∧
        router 100000 ⟨[⟨1, .str "Launch", [⟨2, .str "Design", []⟩]⟩, ⟨4, .str "Beta", []⟩]⟩
            ⟨"GET", programmePath 4, none⟩
          = (.json 200 (.programme p),
              ⟨[⟨1, .str "Launch", [⟨2, .str "Design", []⟩]⟩, ⟨4, .str "Beta", []⟩]⟩))
    ∧ router 100000 ⟨[⟨1, .str "Launch", [⟨2, .str "Design", []⟩]⟩, ⟨4, .str "Beta", []⟩]⟩
          ⟨"GET", modulePath 9, none⟩
        = (.json 404 (.error "Module not found"),
            ⟨[⟨1, .str "Launch", [⟨2, .str "Design", []⟩]⟩, ⟨4, .str "Beta", []⟩]⟩) :=
  ⟨(C5_get_by_id 100000
      ⟨[⟨1, .str "Launch", [⟨2, .str "Design", []⟩]⟩, ⟨4, .str "Beta", []⟩]⟩ 4 none
      (isDouble_of_abs_le 4 (by decide))).2.2.1 ⟨⟨4, .str "Beta", []⟩, by simp, rfl⟩,
    (C5_get_by_id 100000
      ⟨[⟨1, .str "Launch", [⟨2, .str "Design", []⟩]⟩, ⟨4, .str "Beta", []⟩]⟩ 9 none
      (isDouble_of_abs_le 9 (by decide))).2.2.2.2 (by simp)⟩

/-- C5 as stated fails for an id that no JavaScript number holds: `parseInt` reads
`9007199254740993` (`2^53 + 1`) as `9007199254740992`, so on a store whose only programme has
id `2^53` the request `GET /api/programmes/9007199254740993` is answered 200 with that
programme although no programme has the id `2^53 + 1`. -/
theorem C5_counterexample :
    router 100000 ⟨[⟨9007199254740992, .str "Alpha", []⟩]⟩
        ⟨"GET", "/api/programmes/9007199254740993".toList, none⟩
      = (.json 200 (.programme ⟨9007199254740992, .str "Alpha", []⟩),
          ⟨[⟨9007199254740992, .str "Alpha", []⟩]⟩)
    ∧ ∀ p ∈ [(⟨9007199254740992, .str "Alpha", []⟩ : Programme)], p.id ≠ 9007199254740993 := by
  refine ⟨rfl, ?_⟩
  intro p hp
  rw [List.mem_singleton] at hp
  subst hp
  decide

/-! ## Creating a task -/

theorem isTruthy_eq_true (v : Option JVal) (h : isTruthy v = true) :
    ∃ x, v = some x ∧ x.truthy = true := by
  cases v with
  | none => simp [isTruthy] at h
  | some x => exact ⟨x, rfl, h⟩

theorem postTask_created (maxSpread : Nat) (data : Store) (id : Number) (P : Programme)
    (M : Module) (body : Option JVal) (name start end_ : JVal) (k : Int)
    (hfind : findModule id data.programmes = some (P, M))
    (h1 : fieldOf "name" body = some name) (h2 : fieldOf "start" body = some start)
    (h3 : fieldOf "end" body = some end_)
    (t1 : name.truthy = true) (t2 : start.truthy = true) (t3 : end_.truthy = true)
    (hk : newId maxSpread (M.tasks.map (fun t => t.id)) = some k) :
    postTask maxSpread data id body =
      (.json 201 (.task ⟨k, name, start, end_⟩),
        { programmes := updateFirst (ownsModule id)
            (pushTaskIn id ⟨k, name, start, end_⟩) data.programmes }) := by
  obtain ⟨members, rfl, hp1⟩ := fieldOf_some _ _ _ h1
  have hp2 : (JVal.obj members).prop "start" = some start := h2
  have hp3 : (JVal.obj members).prop "end" = some end_ := h3
  simp [postTask, hfind, hp1, hp2, hp3, t1, t2, t3, hk]

theorem postTask_invalid (maxSpread : Nat) (data : Store) (id : Number) (P : Programme)
    (M : Module) (body : Option JVal)
    (hfind : findModule id data.programmes = some (P, M))
    (h : isTruthy (fieldOf "name" body) = false ∨ isTruthy (fieldOf "start" body) = false
      ∨ isTruthy (fieldOf "end" body) = false) :
    postTask maxSpread data id body = (invalidJSON, data)
      ∨ postTask maxSpread data id body
          = (.json 400 (.error "Name, start, and end are required"), data) := by
  unfold postTask
  rw [hfind]
  cases body with
  | none => exact Or.inl rfl
  | some parsed =>
    cases parsed with
    | null => exact Or.inl rfl
    | obj members =>
      right
      simp only [fieldOf, Option.bind] at h
      cases hp1 : (JVal.obj members).prop "name" with
      | none => simp [hp1]
      | some name =>
        cases hp2 : (JVal.obj members).prop "start" with
        | none => simp [hp1, hp2]
        | some start =>
          cases hp3 : (JVal.obj members).prop "end" with
          | none => simp [hp1, hp2, hp3]
          | some end_ =>
            rw [hp1, hp2, hp3] at h
            simp only [isTruthy] at h
            simp only [hp1, hp2, hp3]
            rcases h with h | h | h <;> simp [h]
    | _ => right; simp [JVal.prop]

theorem find?_module_eq_none (ms : List Module) (id : Int) :
    ms.find? (fun m => Number.int m.id == Number.int id) = none ↔ ∀ m ∈ ms, m.id ≠ id := by
  rw [List.find?_eq_none]
  constructor
  · intro h m hm
    simpa using h m hm
  · intro h m hm
    simpa using h m hm

theorem postTask_rangeError (maxSpread : Nat) (data : Store) (id : Number) (P : Programme)
    (M : Module) (body : Option JVal) (name start end_ : JVal)
    (hfind : findModule id data.programmes = some (P, M))
    (h1 : fieldOf "name" body = some name) (h2 : fieldOf "start" body = some start)
    (h3 : fieldOf "end" body = some end_)
    (t1 : name.truthy = true) (t2 : start.truthy = true) (t3 : end_.truthy = true)
    (hlong : maxSpread < M.tasks.length) :
    postTask maxSpread data id body = (.json 400 (.error "Invalid JSON"), data) := by
  obtain ⟨members, rfl, hp1⟩ := fieldOf_some _ _ _ h1
  have hp2 : (JVal.obj members).prop "start" = some start := h2
  have hp3 : (JVal.obj members).prop "end" = some end_ := h3
  have hk := newId_rangeError maxSpread (M.tasks.map (fun t => t.id)) (by simpa using hlong)
  simp [postTask, hfind, hp1, hp2, hp3, t1, t2, t3, hk, invalidJSON]

/-- C4, as the code has it: when `M` is the module that the scan for its id meets first (no
programme before `P` owns a module with that id and no module before `M` in `P` has it), the
id of `M` and the ids of its tasks are safe integers (magnitude below `2^53`), the spread of
`Math.max` can pass the tasks of `M`, and the body's `name`, `start` and `end` are all truthy,
`POST /api/modules/<M.id>/tasks` answers 201 with the task `{id, name, start, end}`, where
`id` is 1 if `M` has no tasks and otherwise one more than the greatest task id of `M`; the
task is appended to the tasks of `M`, and a following `GET /api/modules/<M.id>` answers 200
with `M`, its tasks followed by the new task, and `programmeId` equal to `P.id`. -/
theorem C4_postTask_then_get (maxSpread : Nat) (pre post : List Programme) (P : Programme)
    (mpre mpost : List Module) (M : Module) (body : Option JVal) (name start end_ : JVal)
    (hP : P.modules = mpre ++ M :: mpost)
    (hpre : ∀ q ∈ pre, ∀ m ∈ q.modules, m.id ≠ M.id)
    (hmpre : ∀ m ∈ mpre, m.id ≠ M.id)
    (hid : SafeInteger M.id)
    (hlen : M.tasks.length ≤ maxSpread)
    (hsafe : ∀ q ∈ M.tasks, SafeInteger q.id)
    (h1 : fieldOf "name" body = some name) (h2 : fieldOf "start" body = some start)
    (h3 : fieldOf "end" body = some end_)
    (t1 : name.truthy = true) (t2 : start.truthy = true) (t3 : end_.truthy = true) :
    ∃ t : Task,
      router maxSpread ⟨pre ++ P :: post⟩ ⟨"POST", moduleTasksPath M.id, body⟩
        = (.json 201 (.task t),
            ⟨pre ++ ⟨P.id, P.name, mpre ++ pushTask t M :: mpost⟩ :: post⟩)
      ∧ t.name = name ∧ t.start = start ∧ t.end_ = end_
      ∧ (M.tasks = [] → t.id = 1)
      ∧ (M.tasks ≠ [] → ∃ q ∈ M.tasks, (∀ r ∈ M.tasks, r.id ≤ q.id) ∧ t.id = q.id + 1)
      ∧ (pushTask t M).id = M.id ∧ (pushTask t M).name = M.name
      ∧ (pushTask t M).tasks = M.tasks ++ [t]
      ∧ ∀ body' : Option JVal,
          router maxSpread ⟨pre ++ ⟨P.id, P.name, mpre ++ pushTask t M :: mpost⟩ :: post⟩
              ⟨"GET", modulePath M.id, body'⟩
            = (.json 200 (.moduleOf (pushTask t M) P.id),
                ⟨pre ++ ⟨P.id, P.name, mpre ++ pushTask t M :: mpost⟩ :: post⟩) := by
  have hnum : toNumber M.id = Number.int M.id := isDouble_of_safe _ hid
  have hm : ∀ y ∈ mpre, (fun m : Module => Number.int m.id == Number.int M.id) y = false := by
    intro y hy
    simpa using hmpre y hy
  have hnone : ∀ q ∈ pre,
      q.modules.find? (fun m => Number.int m.id == Number.int M.id) = none :=
    fun q hq => (find?_module_eq_none _ _).mpr (hpre q hq)
  have hown : ∀ y ∈ pre, ownsModule (.int M.id) y = false := by
    intro y hy
    simp [ownsModule, hnone y hy]
  have hPfind : P.modules.find? (fun m => Number.int m.id == Number.int M.id) = some M := by
    rw [hP]
    exact find?_first _ mpre mpost M hm (by simp)
  have hfind : findModule (.int M.id) (pre ++ P :: post) = some (P, M) :=
    findModule_first _ pre post P M hnone hPfind
  obtain ⟨k, hk, hk1, hk2⟩ := newId_map (fun t : Task => t.id) maxSpread M.tasks hlen hsafe
  refine ⟨⟨k, name, start, end_⟩, ?_, rfl, rfl, rfl, hk1, hk2, rfl, rfl, rfl, ?_⟩
  · rw [router_postTask, hnum,
      postTask_created _ _ _ P M body name start end_ k hfind h1 h2 h3 t1 t2 t3 hk]
    simp only
    rw [updateFirst_first _ _ pre post P hown (by simp [ownsModule, hPfind])]
    simp only [pushTaskIn]
    rw [hP, updateFirst_first _ _ mpre mpost M hm (by simp)]
  · intro body'
    rw [router_getModule, hnum]
    unfold getModule
    simp only
    rw [findModule_first (.int M.id) pre post _ _ hnone
      (find?_first (fun m : Module => Number.int m.id == Number.int M.id) mpre mpost _ hm
        (by simp [pushTask]))]

/-- C4 (as amended) on the second module of the second programme, which has the tasks 2 and
4: the new task gets id 5. -/
theorem C4_postTask_then_get_witness :
    ∃ t : Task,
      router 100000
          ⟨[⟨1, .str "Alpha", [⟨1, .str "a", []⟩]⟩] ++
            (⟨2, .str "Beta", [⟨7, .str "b", []⟩] ++
              (⟨8, .str "Design", [⟨2, .str "x", .str "y", .str "z"⟩,
                ⟨4, .str "u", .str "v", .str "w"⟩]⟩ : Module) :: [⟨9, .str "c", []⟩]⟩ :
              Programme) :: [⟨3, .str "Gamma", []⟩]⟩
          ⟨"POST", moduleTasksPath 8,
            some (.obj [("name", .str "Wireframes"), ("start", .str "2024-01-01"),
              ("end", .str "2024-01-10")])⟩
        = (.json 201 (.task t),
            ⟨[⟨1, .str "Alpha", [⟨1, .str "a", []⟩]⟩] ++
              ⟨2, .str "Beta", [⟨7, .str "b", []⟩] ++
                pushTask t ⟨8, .str "Design", [⟨2, .str "x", .str "y", .str "z"⟩,
                  ⟨4, .str "u", .str "v", .str "w"⟩]⟩ :: [⟨9, .str "c", []⟩]⟩ ::
              [⟨3, .str "Gamma", []⟩]⟩)
      ∧ t.name = .str "Wireframes" ∧ t.start = .str "2024-01-01"
      ∧ t.end_ = .str "2024-01-10" ∧ t.id = 5 := by
  obtain ⟨t, e, hn, hs, he, -, hmax, -⟩ := C4_postTask_then_get 100000
    [⟨1, .str "Alpha", [⟨1, .str "a", []⟩]⟩] [⟨3, .str "Gamma", []⟩]
    ⟨2, .str "Beta", [⟨7, .str "b", []⟩] ++
      (⟨8, .str "Design", [⟨2, .str "x", .str "y", .str "z"⟩,
        ⟨4, .str "u", .str "v", .str "w"⟩]⟩ : Module) :: [⟨9, .str "c", []⟩]⟩
    [⟨7, .str "b", []⟩] [⟨9, .str "c", []⟩]
    ⟨8, .str "Design", [⟨2, .str "x", .str "y", .str "z"⟩, ⟨4, .str "u", .str "v", .str "w"⟩]⟩
    (some (.obj [("name", .str "Wireframes"), ("start", .str "2024-01-01"),
      ("end", .str "2024-01-10")]))
    (.str "Wireframes") (.str "2024-01-01") (.str "2024-01-10")
    rfl (by simp) (by simp) (by simp [SafeInteger]) (by simp) (by simp [SafeInteger])
    rfl rfl rfl (by decide) (by decide) (by decide)
  obtain ⟨q, hq, hle, eid⟩ := hmax (by simp)
  refine ⟨t, e, hn, hs, he, ?_⟩
  simp only [List.mem_cons, List.mem_singleton, List.not_mem_nil, or_false] at hq
  have h4 := hle ⟨4, .str "u", .str "v", .str "w"⟩ (by simp)
  rcases hq with rfl | rfl
  · simp at h4
  · rw [eid]; rfl

/-- C4 as stated fails in four ways. When the only task of module 1 has id
`2^53 = 9007199254740992`, the new task gets the id `2^53` again, not `2^53 + 1`. A body in
which `name` is present with the value `false` is answered with 400. With module ids
unique within each programme, for `M` the module 1 of programme 2 the task is pushed onto
module 1 of programme 1 and the following GET returns that module with `programmeId` 1. And
on an engine whose spread passes at most 100000 arguments, a module with the tasks 1 to 100001
gets 400 `{error: "Invalid JSON"}` and no new task. -/
theorem C4_counterexample :
    (router 100000
        ⟨[⟨1, .str "A", [⟨1, .str "Design",
          [⟨9007199254740992, .str "x", .str "y", .str "z"⟩]⟩]⟩]⟩
        ⟨"POST", "/api/modules/1/tasks".toList,
          some (.obj [("name", .str "Wireframes"), ("start", .str "2024-01-01"),
            ("end", .str "2024-01-10")])⟩
      = (.json 201
            (.task ⟨9007199254740992, .str "Wireframes", .str "2024-01-01", .str "2024-01-10"⟩),
          ⟨[⟨1, .str "A", [⟨1, .str "Design",
            [⟨9007199254740992, .str "x", .str "y", .str "z"⟩,
              ⟨9007199254740992, .str "Wireframes", .str "2024-01-01", .str "2024-01-10"⟩]⟩]⟩]⟩)
      ∧ (9007199254740992 : Int) ≠ 9007199254740992 + 1)
    ∧ router 100000 ⟨[⟨1, .str "A", [⟨1, .str "Design", []⟩]⟩]⟩
        ⟨"POST", "/api/modules/1/tasks".toList,
          some (.obj [("name", .bool false), ("start", .str "2024-01-01"),
            ("end", .str "2024-01-10")])⟩
      = (.json 400 (.error "Name, start, and end are required"),
          ⟨[⟨1, .str "A", [⟨1, .str "Design", []⟩]⟩]⟩)
    ∧ (router 100000
        ⟨[⟨1, .str "A", [⟨1, .str "Design", []⟩]⟩, ⟨2, .str "B", [⟨1, .str "Build", []⟩]⟩]⟩
        ⟨"POST", "/api/modules/1/tasks".toList,
          some (.obj [("name", .str "Wireframes"), ("start", .str "2024-01-01"),
            ("end", .str "2024-01-10")])⟩
      = (.json 201 (.task ⟨1, .str "Wireframes", .str "2024-01-01", .str "2024-01-10"⟩),
          ⟨[⟨1, .str "A", [⟨1, .str "Design",
              [⟨1, .str "Wireframes", .str "2024-01-01", .str "2024-01-10"⟩]⟩]⟩,
            ⟨2, .str "B", [⟨1, .str "Build", []⟩]⟩]⟩)
      ∧ router 100000 ⟨[⟨1, .str "A", [⟨1, .str "Design",
              [⟨1, .str "Wireframes", .str "2024-01-01", .str "2024-01-10"⟩]⟩]⟩,
            ⟨2, .str "B", [⟨1, .str "Build", []⟩]⟩]⟩
        ⟨"GET", "/api/modules/1".toList, none⟩
      = (.json 200 (.moduleOf ⟨1, .str "Design",
              [⟨1, .str "Wireframes", .str "2024-01-01", .str "2024-01-10"⟩]⟩ 1),
          ⟨[⟨1, .str "A", [⟨1, .str "Design",
              [⟨1, .str "Wireframes", .str "2024-01-01", .str "2024-01-10"⟩]⟩]⟩,
            ⟨2, .str "B", [⟨1, .str "Build", []⟩]⟩]⟩)
      ∧ (1 : Int) ≠ 2)
    ∧ router 100000
        ⟨[⟨1, .str "A", [⟨1, .str "Design", (List.range 100001).map
          (fun (i : Nat) => (⟨(i : Int) + 1, .str "t", .str "s", .str "e"⟩ : Task))⟩]⟩]⟩
        ⟨"POST", moduleTasksPath 1,
          some (.obj [("name", .str "Wireframes"), ("start", .str "2024-01-01"),
            ("end", .str "2024-01-10")])⟩
      = (.json 400 (.error "Invalid JSON"),
          ⟨[⟨1, .str "A", [⟨1, .str "Design", (List.range 100001).map
            (fun (i : Nat) => (⟨(i : Int) + 1, .str "t", .str "s", .str "e"⟩ : Task))⟩]⟩]⟩) := by
  refine ⟨⟨rfl, by decide⟩, rfl, ⟨rfl, rfl, by decide⟩, ?_⟩
  have hnum : toNumber 1 = Number.int 1 := isDouble_of_abs_le 1 (by decide)
  rw [router_postTask, hnum]
  exact postTask_rangeError 100000 _ _
    ⟨1, .str "A", [⟨1, .str "Design", (List.range 100001).map
      (fun (i : Nat) => (⟨(i : Int) + 1, .str "t", .str "s", .str "e"⟩ : Task))⟩]⟩
    ⟨1, .str "Design", (List.range 100001).map
      (fun (i : Nat) => (⟨(i : Int) + 1, .str "t", .str "s", .str "e"⟩ : Task))⟩
    _ (.str "Wireframes") (.str "2024-01-01") (.str "2024-01-10")
    (by simp [findModule]) rfl rfl rfl (by decide) (by decide) (by decide) (by simp)

/-! ## Errors of the nested create operations -/

theorem exists_find?_of_mem (ps : List Programme) (id : Int)
    (h : ∃ p ∈ ps, p.id = id) :
    ∃ p, ps.find? (fun p => Number.int p.id == Number.int id) = some p
      ∧ p ∈ ps ∧ p.id = id := by
  cases hf : ps.find? (fun p => Number.int p.id == Number.int id) with
  | some p =>
    exact ⟨p, rfl, List.mem_of_find?_eq_some hf, by simpa using List.find?_some hf⟩
  | none =>
    obtain ⟨p, hp, hid⟩ := h
    exact absurd hid ((find?_id_eq_none _ _).mp hf p hp)

theorem exists_findModule_of_mem (ps : List Programme) (id : Int)
    (h : ∃ p ∈ ps, ∃ m ∈ p.modules, m.id = id) :
    ∃ P M, findModule (.int id) ps = some (P, M) ∧ P ∈ ps ∧ M ∈ P.modules ∧ M.id = id := by
  cases hf : findModule (.int id) ps with
  | some found =>
    obtain ⟨P, M⟩ := found
    obtain ⟨pre, post, e, -, hM⟩ := findModule_split _ _ _ _ hf
    exact ⟨P, M, rfl, by rw [e]; simp, List.mem_of_find?_eq_some hM,
      by simpa using List.find?_some hM⟩
  | none =>
    obtain ⟨p, hp, m, hm, hid⟩ := h
    exact absurd (by rw [hid]) ((findModule_eq_none _ _).mp hf p hp m hm)

theorem newId_isSome (maxSpread : Nat) (ids : List Int) (hlen : ids.length ≤ maxSpread) :
    ∃ k, newId maxSpread ids = some k := by
  cases ids with
  | nil => exact ⟨1, rfl⟩
  | cons i rest =>
    have hnl : ¬ maxSpread < (i :: rest).length := by omega
    exact ⟨_, by simp only [newId]; rw [if_neg hnl]⟩

/-- C6, as the code has it, for an id that a JavaScript number holds exactly (every id of
magnitude up to `2^53` is one). `POST /api/programmes/<id>/modules` answers 404 when no
programme has that id, whatever the body, and otherwise 400 when `name` is missing, empty or
not a string, and 201 when `name` is a non-empty string and the spread of `Math.max` can pass
the modules of the programme. `POST /api/modules/<id>/tasks` answers 404 when no programme
owns a module with that id, whatever the body, and otherwise 400 when any of `name`, `start`,
`end` is missing or falsy (`""`, `null`, `false`, `0`), and 201 when all three are truthy and
the spread can pass the tasks of the module. In the 404 and 400 cases the persisted store is
unchanged. -/
theorem C6_nested_create_errors (maxSpread : Nat) (data : Store) (id : Int)
    (body : Option JVal) (hid : IsDouble id) :
    ((∀ p ∈ data.programmes, p.id ≠ id) →
        router maxSpread data ⟨"POST", programmeModulesPath id, body⟩
          = (.json 404 (.error "Programme not found"), data))
    ∧ ((∃ p ∈ data.programmes, p.id = id) →
        (∀ n : String, fieldOf "name" body = some (.str n) → n = "") →
        ∃ message : String,
          router maxSpread data ⟨"POST", programmeModulesPath id, body⟩
            = (.json 400 (.error message), data))
    ∧ ((∃ p ∈ data.programmes, p.id = id) →
        (∀ p ∈ data.programmes, p.id = id → p.modules.length ≤ maxSpread) →
        (∃ n : String, n ≠ "" ∧ fieldOf "name" body = some (.str n)) →
        (router maxSpread data ⟨"POST", programmeModulesPath id, body⟩).1.status = some 201)
    ∧ ((∀ p ∈ data.programmes, ∀ m ∈ p.modules, m.id ≠ id) →
        router maxSpread data ⟨"POST", moduleTasksPath id, body⟩
          = (.json 404 (.error "Module not found"), data))
    ∧ ((∃ p ∈ data.programmes, ∃ m ∈ p.modules, m.id = id) →
        (isTruthy (fieldOf "name" body) = false ∨ isTruthy (fieldOf "start" body) = false
          ∨ isTruthy (fieldOf "end" body) = false) →
        ∃ message : String,
          router maxSpread data ⟨"POST", moduleTasksPath id, body⟩
            = (.json 400 (.error message), data))
    ∧ ((∃ p ∈ data.programmes, ∃ m ∈ p.modules, m.id = id) →
        (∀ p ∈ data.programmes, ∀ m ∈ p.modules, m.id = id → m.tasks.length ≤ maxSpread) →
        isTruthy (fieldOf "name" body) = true → isTruthy (fieldOf "start" body) = true →
        isTruthy (fieldOf "end" body) = true →
        (router maxSpread data ⟨"POST", moduleTasksPath id, body⟩).1.status = some 201) := by
  have hnum : toNumber id = Number.int id := hid
  rw [router_postModule, router_postTask, hnum]
  refine ⟨?_, ?_, ?_, ?_, ?_, ?_⟩
  · intro hno
    simp [postModule, (find?_id_eq_none _ _).mpr hno]
  · intro hex hname
    obtain ⟨programme, hfind, -, -⟩ := exists_find?_of_mem _ _ hex
    rcases postModule_invalid_name maxSpread data _ programme body hfind hname with e | e
    · exact ⟨_, e⟩
    · exact ⟨_, e⟩
  · rintro hex hlen ⟨n, hn, hname⟩
    obtain ⟨programme, hfind, hmem, hpid⟩ := exists_find?_of_mem _ _ hex
    obtain ⟨k, hk⟩ := newId_isSome maxSpread (programme.modules.map (fun m => m.id))
      (by simpa using hlen programme hmem hpid)
    rw [postModule_created maxSpread data _ programme body n k hfind hname hn hk]
    rfl
  · intro hno
    have hnone : findModule (.int id) data.programmes = none := by
      rw [findModule_eq_none]
      intro p hp m hm e
      exact hno p hp m hm (by simpa using e)
    simp [postTask, hnone]
  · intro hex hfalsy
    obtain ⟨P, M, hfind, -, -, -⟩ := exists_findModule_of_mem _ _ hex
    rcases postTask_invalid maxSpread data _ P M body hfind hfalsy with e | e
    · exact ⟨_, e⟩
    · exact ⟨_, e⟩
  · intro hex hlen t1 t2 t3
    obtain ⟨P, M, hfind, hP, hM, hMid⟩ := exists_findModule_of_mem _ _ hex
    obtain ⟨name, h1, t1⟩ := isTruthy_eq_true _ t1
    obtain ⟨start, h2, t2⟩ := isTruthy_eq_true _ t2
    obtain ⟨end_, h3, t3⟩ := isTruthy_eq_true _ t3
    obtain ⟨k, hk⟩ := newId_isSome maxSpread (M.tasks.map (fun t => t.id))
      (by simpa using hlen P hP M hM hMid)
    rw [postTask_created maxSpread data _ P M body name start end_ k hfind h1 h2 h3 t1 t2 t3 hk]
    rfl

/-- C6 (as amended) on the module 5 of the second programme and a body without `end`: 400,
store unchanged. -/
theorem C6_nested_create_errors_witness :
    ∃ message : String,
      router 100000
          ⟨[⟨1, .str "Launch", [⟨1, .str "Design", []⟩]⟩,
            ⟨2, .str "Beta", [⟨5, .str "Build", [⟨1, .str "x", .str "y", .str "z"⟩]⟩]⟩]⟩
          ⟨"POST", moduleTasksPath 5,
            some (.obj [("name", .str "Wireframes"), ("start", .str "2024-01-01")])⟩
        = (.json 400 (.error message),
            ⟨[⟨1, .str "Launch", [⟨1, .str "Design", []⟩]⟩,
              ⟨2, .str "Beta", [⟨5, .str "Build", [⟨1, .str "x", .str "y", .str "z"⟩]⟩]⟩]⟩) :=
  (C6_nested_create_errors 100000
    ⟨[⟨1, .str "Launch", [⟨1, .str "Design", []⟩]⟩,
      ⟨2, .str "Beta", [⟨5, .str "Build", [⟨1, .str "x", .str "y", .str "z"⟩]⟩]⟩]⟩ 5
    (some (.obj [("name", .str "Wireframes"), ("start", .str "2024-01-01")]))
    (isDouble_of_abs_le 5 (by decide))).2.2.2.2.1
    ⟨⟨2, .str "Beta", [⟨5, .str "Build", [⟨1, .str "x", .str "y", .str "z"⟩]⟩]⟩, by simp,
      ⟨5, .str "Build", [⟨1, .str "x", .str "y", .str "z"⟩]⟩, by simp, rfl⟩
    (Or.inr (Or.inr rfl))

/-- C6 as stated fails on a task body in which all three fields are present and none is
empty: with `name` equal to `false`, or `start` equal to `0`, the answer is 400, not 201. It
also fails for an id that no JavaScript number holds: no programme has the id `2^53 + 1`, yet
`POST /api/programmes/9007199254740993/modules` finds the programme `2^53` and answers 201.
And where the spread throws: on an engine that passes at most 100000 arguments, a valid name
for a programme with the modules 1 to 100001 gets 400, not 201. -/
theorem C6_counterexample :
    router 100000 ⟨[⟨1, .str "Launch", [⟨1, .str "Design", []⟩]⟩]⟩
        ⟨"POST", "/api/modules/1/tasks".toList,
          some (.obj [("name", .bool false), ("start", .str "2024-01-01"),
            ("end", .str "2024-01-10")])⟩
      = (.json 400 (.error "Name, start, and end are required"),
          ⟨[⟨1, .str "Launch", [⟨1, .str "Design", []⟩]⟩]⟩)
    ∧ router 100000 ⟨[⟨1, .str "Launch", [⟨1, .str "Design", []⟩]⟩]⟩
        ⟨"POST", "/api/modules/1/tasks".toList,
          some (.obj [("name", .str "Wireframes"), ("start", .num 0),
            ("end", .str "2024-01-10")])⟩
      = (.json 400 (.error "Name, start, and end are required"),
          ⟨[⟨1, .str "Launch", [⟨1, .str "Design", []⟩]⟩]⟩)
    ∧ router 100000 ⟨[⟨9007199254740992, .str "Alpha", []⟩]⟩
        ⟨"POST", "/api/programmes/9007199254740993/modules".toList,
          some (.obj [("name", .str "Design")])⟩
      = (.json 201 (.module ⟨1, .str "Design", []⟩),
          ⟨[⟨9007199254740992, .str "Alpha", [⟨1, .str "Design", []⟩]⟩]⟩)
    ∧ (9007199254740992 : Int) ≠ 9007199254740993
    ∧ router 100000
        ⟨[⟨1, .str "Launch",
          (List.range 100001).map (fun (i : Nat) => (⟨(i : Int) + 1, .str "m", []⟩ : Module))⟩]⟩
        ⟨"POST", programmeModulesPath 1, some (.obj [("name", .str "Design")])⟩
      = (.json 400 (.error "Invalid JSON"),
          ⟨[⟨1, .str "Launch",
            (List.range 100001).map
              (fun (i : Nat) => (⟨(i : Int) + 1, .str "m", []⟩ : Module))⟩]⟩) := by
  refine ⟨rfl, rfl, rfl, by decide, ?_⟩
  have hnum : toNumber 1 = Number.int 1 := isDouble_of_abs_le 1 (by decide)
  rw [router_postModule, hnum]
  exact postModule_rangeError 100000 _ _
    ⟨1, .str "Launch",
      (List.range 100001).map (fun (i : Nat) => (⟨(i : Int) + 1, .str "m", []⟩ : Module))⟩
    _ "Design" (by simp) rfl (by decide) (by simp)

/-! ## What the router can do to the store -/

theorem getProgramme_snd (data : Store) (id : Number) : (getProgramme data id).2 = data := by
  unfold getProgramme
  split <;> rfl

theorem getModule_snd (data : Store) (id : Number) : (getModule data id).2 = data := by
  unfold getModule
  split <;> rfl

theorem programmesRoutes_some (maxSpread : Nat) (data : Store) (req : Request)
    (route : List (List Char)) (result : Response × Store)
    (h : programmesRoutes maxSpread data req route = some result) :
    (req.method ≠ "POST" ∧ result.2 = data)
      ∨ (req.method = "POST" ∧ (result = postProgramme maxSpread data req.body
          ∨ ∃ id, result = postModule maxSpread data id req.body)) := by
  unfold programmesRoutes at h
  cases he : extractId (route.get? 1) with
  | none =>
    simp only [he] at h
    split_ifs at h with h0 h1 h2
    · cases h
      exact Or.inl ⟨by rw [h1.1]; decide, rfl⟩
    · cases h
      exact Or.inr ⟨h2.1, Or.inl rfl⟩
  | some programmeId =>
    simp only [he] at h
    split_ifs at h with h0 h1 h2 h3 h4
    · cases h
      exact Or.inl ⟨by rw [h1.1]; decide, rfl⟩
    · cases h
      exact Or.inr ⟨h2.1, Or.inl rfl⟩
    · cases h
      exact Or.inl ⟨by rw [h3.2]; decide, getProgramme_snd _ _⟩
    · cases h
      exact Or.inr ⟨h4.2.2, Or.inr ⟨programmeId, rfl⟩⟩

theorem modulesRoutes_some (maxSpread : Nat) (data : Store) (req : Request)
    (route : List (List Char)) (result : Response × Store)
    (h : modulesRoutes maxSpread data req route = some result) :
    (req.method ≠ "POST" ∧ result.2 = data)
      ∨ (req.method = "POST" ∧ ∃ id, result = postTask maxSpread data id req.body) := by
  unfold modulesRoutes at h
  cases he : extractId (route.get? 1) with
  | none =>
    simp only [he] at h
    split_ifs at h
  | some moduleId =>
    simp only [he] at h
    split_ifs at h with h0 h1 h2
    · cases h
      exact Or.inl ⟨by rw [h1.1]; decide, getModule_snd _ _⟩
    · cases h
      exact Or.inr ⟨h2.1, ⟨moduleId, rfl⟩⟩

/-- Every response of the router falls under one of six cases. -/
theorem router_cases (maxSpread : Nat) (data : Store) (req : Request) :
    (req.method ≠ "POST" ∧ (router maxSpread data req).2 = data)
      ∨ router maxSpread data req = (.json 404 (.error "Not Found"), data)
      ∨ (startsWith req.pathname "/api".toList = false
          ∧ router maxSpread data req = (.static, data))
      ∨ (req.method = "POST" ∧ router maxSpread data req = postProgramme maxSpread data req.body)
      ∨ (req.method = "POST"
          ∧ ∃ id, router maxSpread data req = postModule maxSpread data id req.body)
      ∨ (req.method = "POST"
          ∧ ∃ id, router maxSpread data req = postTask maxSpread data id req.body) := by
  unfold router
  split_ifs with hO hs hd
  · exact Or.inl ⟨by rw [hO]; decide, rfl⟩
  · exact Or.inl ⟨by rw [hd.1]; decide, rfl⟩
  · simp only
    cases hp : programmesRoutes maxSpread data req ((parts req.pathname).drop 1) with
    | some result =>
      rcases programmesRoutes_some _ _ _ _ _ hp with ⟨hm, e⟩ | ⟨hm, e | ⟨id, e⟩⟩
      · exact Or.inl ⟨hm, e⟩
      · exact Or.inr (Or.inr (Or.inr (Or.inl ⟨hm, e⟩)))
      · exact Or.inr (Or.inr (Or.inr (Or.inr (Or.inl ⟨hm, id, e⟩))))
    | none =>
      cases hmod : modulesRoutes maxSpread data req ((parts req.pathname).drop 1) with
      | some result =>
        rcases modulesRoutes_some _ _ _ _ _ hmod with ⟨hm, e⟩ | ⟨hm, id, e⟩
        · exact Or.inl ⟨hm, e⟩
        · exact Or.inr (Or.inr (Or.inr (Or.inr (Or.inr ⟨hm, id, e⟩))))
      | none => exact Or.inr (Or.inl rfl)
  · exact Or.inr (Or.inr (Or.inl ⟨by simpa using hs, rfl⟩))

theorem postProgramme_step (maxSpread : Nat) (data : Store) (body : Option JVal) :
    (postProgramme maxSpread data body).2 = data
      ∨ Created maxSpread data (postProgramme maxSpread data body).2 := by
  unfold postProgramme
  split
  · exact Or.inl rfl
  · exact Or.inl rfl
  · split
    · exact Or.inl rfl
    · split_ifs
      · exact Or.inl rfl
      · cases hk : newId maxSpread (data.programmes.map (fun p => p.id)) with
        | none => exact Or.inl rfl
        | some k => exact Or.inr (Or.inl ⟨_, rfl, hk, rfl⟩)

theorem postModule_step (maxSpread : Nat) (data : Store) (id : Number) (body : Option JVal) :
    (postModule maxSpread data id body).2 = data
      ∨ Created maxSpread data (postModule maxSpread data id body).2 := by
  unfold postModule
  cases hfind : data.programmes.find? (fun p => Number.int p.id == id) with
  | none => exact Or.inl rfl
  | some programme =>
    obtain ⟨hx, pre, post, e, hpre⟩ := find?_split _ _ _ hfind
    simp only
    split
    · exact Or.inl rfl
    · exact Or.inl rfl
    · split
      · exact Or.inl rfl
      · rename_i name _
        split_ifs
        · exact Or.inl rfl
        · cases hk : newId maxSpread (programme.modules.map (fun m => m.id)) with
          | none => exact Or.inl rfl
          | some k =>
            refine Or.inr (Or.inr (Or.inl ⟨pre, post, programme, ⟨k, name, []⟩, e, rfl, hk, ?_⟩))
            simp only
            rw [e, updateFirst_first _ _ pre post programme hpre hx]
            rfl

theorem postTask_step (maxSpread : Nat) (data : Store) (id : Number) (body : Option JVal) :
    (postTask maxSpread data id body).2 = data
      ∨ Created maxSpread data (postTask maxSpread data id body).2 := by
  unfold postTask
  cases hfind : findModule id data.programmes with
  | none => exact Or.inl rfl
  | some found =>
    obtain ⟨P, M⟩ := found
    obtain ⟨pre, post, e, hpre, hPfind⟩ := findModule_split _ _ _ _ hfind
    obtain ⟨hx, mpre, mpost, eM, hmpre⟩ := find?_split _ _ _ hPfind
    have hown : ∀ y ∈ pre, ownsModule id y = false := by
      intro y hy
      simp [ownsModule, hpre y hy]
    simp only
    split
    · exact Or.inl rfl
    · exact Or.inl rfl
    · split
      · rename_i name start end_ _ _ _
        split_ifs
        · exact Or.inl rfl
        · cases hk : newId maxSpread (M.tasks.map (fun t => t.id)) with
          | none => exact Or.inl rfl
          | some k =>
            refine Or.inr (Or.inr (Or.inr ⟨pre, post, P, mpre, mpost, M,
              ⟨k, name, start, end_⟩, e, eM, hk, ?_⟩))
            simp only
            rw [e, updateFirst_first _ _ pre post P hown (by simp [ownsModule, hPfind])]
            simp only [pushTaskIn]
            rw [eM, updateFirst_first _ _ mpre mpost M hmpre hx]
            rfl
      · exact Or.inl rfl

/-- A request leaves the store as it was or creates one entity. -/
theorem router_step (maxSpread : Nat) (data : Store) (req : Request) :
    (router maxSpread data req).2 = data
      ∨ Created maxSpread data (router maxSpread data req).2 := by
  rcases router_cases maxSpread data req with
    ⟨-, e⟩ | e | ⟨-, e⟩ | ⟨-, e⟩ | ⟨-, id, e⟩ | ⟨-, id, e⟩
  · exact Or.inl e
  · rw [e]; exact Or.inl rfl
  · rw [e]; exact Or.inl rfl
  · rw [e]; exact postProgramme_step _ _ _
  · rw [e]; exact postModule_step _ _ _ _
  · rw [e]; exact postTask_step _ _ _ _

/-! ## Uniqueness of sibling ids -/

theorem nodup_append_newId (maxSpread : Nat) (ids : List Int) (k : Int) (h : ids.Nodup)
    (hsafe : ∀ i ∈ ids, SafeInteger i) (hk : newId maxSpread ids = some k) :
    (ids ++ [k]).Nodup := by
  rw [List.nodup_append]
  refine ⟨h, List.nodup_singleton _, ?_⟩
  intro i hi hi'
  rw [List.mem_singleton] at hi'
  have := lt_newId maxSpread ids k hsafe hk i hi
  omega

theorem Created.uniqueIds (maxSpread : Nat) (data data' : Store) (h : UniqueIds data)
    (hs : SafeIds data) (hc : Created maxSpread data data') : UniqueIds data' := by
  obtain ⟨hps, hin⟩ := h
  rcases hc with ⟨p, hmods, hid, e'⟩ | ⟨pre, post, P, m, e, htasks, hid, e'⟩
    | ⟨pre, post, P, mpre, mpost, M, t, e, eM, hid, e'⟩
  · refine ⟨?_, ?_⟩
    · rw [e', List.map_append, List.map_singleton]
      refine nodup_append_newId maxSpread _ _ hps ?_ hid
      intro i hi
      obtain ⟨q, hq, rfl⟩ := List.mem_map.mp hi
      exact (hs q hq).1
    · intro q hq
      rw [e', List.mem_append, List.mem_singleton] at hq
      rcases hq with hq | rfl
      · exact hin q hq
      · rw [hmods]
        exact ⟨List.nodup_nil, fun m hm => absurd hm (List.not_mem_nil _)⟩
  · have hP : P ∈ data.programmes := by rw [e]; simp
    refine ⟨?_, ?_⟩
    · rw [e']
      rw [e] at hps
      simpa using hps
    · intro q hq
      rw [e', List.mem_append, List.mem_cons] at hq
      have hold : ∀ x, x ∈ pre ∨ x ∈ post → x ∈ data.programmes := by
        intro x hx
        rw [e, List.mem_append, List.mem_cons]
        rcases hx with hx | hx
        · exact Or.inl hx
        · exact Or.inr (Or.inr hx)
      rcases hq with hq | rfl | hq
      · exact hin q (hold q (Or.inl hq))
      · refine ⟨?_, ?_⟩
        · show ((P.modules ++ [m]).map (fun m => m.id)).Nodup
          rw [List.map_append, List.map_singleton]
          refine nodup_append_newId maxSpread _ _ (hin P hP).1 ?_ hid
          intro i hi
          obtain ⟨q, hq, rfl⟩ := List.mem_map.mp hi
          exact ((hs P hP).2 q hq).1
        · intro m' hm'
          change m' ∈ P.modules ++ [m] at hm'
          rw [List.mem_append, List.mem_singleton] at hm'
          rcases hm' with hm' | rfl
          · exact (hin P hP).2 m' hm'
          · rw [htasks]; exact List.nodup_nil
      · exact hin q (hold q (Or.inr hq))
  · have hP : P ∈ data.programmes := by rw [e]; simp
    have hM : M ∈ P.modules := by rw [eM]; simp
    refine ⟨?_, ?_⟩
    · rw [e']
      rw [e] at hps
      simpa using hps
    · intro q hq
      rw [e', List.mem_append, List.mem_cons] at hq
      have hold : ∀ x, x ∈ pre ∨ x ∈ post → x ∈ data.programmes := by
        intro x hx
        rw [e, List.mem_append, List.mem_cons]
        rcases hx with hx | hx
        · exact Or.inl hx
        · exact Or.inr (Or.inr hx)
      rcases hq with hq | rfl | hq
      · exact hin q (hold q (Or.inl hq))
      · refine ⟨?_, ?_⟩
        · have h1 := (hin P hP).1
          rw [eM] at h1
          show ((mpre ++ (⟨M.id, M.name, M.tasks ++ [t]⟩ : Module) :: mpost).map
            (fun m => m.id)).Nodup
          simpa using h1
        · intro m' hm'
          change m' ∈ mpre ++ (⟨M.id, M.name, M.tasks ++ [t]⟩ : Module) :: mpost at hm'
          rw [List.mem_append, List.mem_cons] at hm'
          have holdM : ∀ x, x ∈ mpre ∨ x ∈ mpost → x ∈ P.modules := by
            intro x hx
            rw [eM, List.mem_append, List.mem_cons]
            rcases hx with hx | hx
            · exact Or.inl hx
            · exact Or.inr (Or.inr hx)
          rcases hm' with hm' | rfl | hm'
          · exact (hin P hP).2 m' (holdM m' (Or.inl hm'))
          · show ((M.tasks ++ [t]).map (fun t => t.id)).Nodup
            rw [List.map_append, List.map_singleton]
            refine nodup_append_newId maxSpread _ _ ((hin P hP).2 M hM) ?_ hid
            intro i hi
            obtain ⟨q, hq, rfl⟩ := List.mem_map.mp hi
            exact (((hs P hP).2 M hM).2 q hq)
          · exact (hin P hP).2 m' (holdM m' (Or.inr hm'))
      · exact hin q (hold q (Or.inr hq))

/-- C8, as the code has it: on a store whose ids are safe integers (magnitude below `2^53`),
uniqueness of sibling ids is kept by every request. If programme ids are pairwise distinct,
module ids are pairwise distinct within each programme and task ids within each module, the
same holds after any request, because every id that `newId` assigns to a sibling of safe
integers is greater than each of them. -/
theorem C8_unique_ids_invariant (maxSpread : Nat) (data : Store) (req : Request)
    (h : UniqueIds data) (hsafe : SafeIds data) :
    UniqueIds (router maxSpread data req).2
      ∧ ∀ (ids : List Int) (k : Int), (∀ i ∈ ids, SafeInteger i) →
          newId maxSpread ids = some k → ∀ i ∈ ids, i < k := by
  refine ⟨?_, fun ids k hs hk => lt_newId maxSpread ids k hs hk⟩
  rcases router_step maxSpread data req with e | hc
  · rw [e]; exact h
  · exact Created.uniqueIds _ _ _ h hsafe hc

/-- C8 (as amended) on a store with two programmes, the second having two modules and its
second module two tasks, for a request that adds a third task. -/
theorem C8_unique_ids_invariant_witness :
    UniqueIds (router 100000
      ⟨[⟨1, .str "Launch", [⟨1, .str "Design", []⟩]⟩,
        ⟨2, .str "Beta", [⟨1, .str "a", []⟩,
          ⟨3, .str "b", [⟨1, .str "x", .str "y", .str "z"⟩,
            ⟨2, .str "u", .str "v", .str "w"⟩]⟩]⟩]⟩
      ⟨"POST", "/api/modules/3/tasks".toList,
        some (.obj [("name", .str "x"), ("start", .str "y"), ("end", .str "z")])⟩).2 :=
  (C8_unique_ids_invariant 100000 _ _ (by simp [UniqueIds])
    (by simp [SafeIds, SafeInteger])).1

/-- C8 as stated fails where `Math.max(...ids) + 1` is not exact: the store whose only
programme has id `2^53 = 9007199254740992` has unique ids, and after `POST /api/programmes` it
holds two programmes with the id `2^53`. -/
theorem C8_counterexample :
    UniqueIds ⟨[⟨9007199254740992, .str "Alpha", []⟩]⟩
    ∧ router 100000 ⟨[⟨9007199254740992, .str "Alpha", []⟩]⟩
        ⟨"POST", "/api/programmes".toList, some (.obj [("name", .str "Launch")])⟩
      = (.json 201 (.programme ⟨9007199254740992, .str "Launch", []⟩),
          ⟨[⟨9007199254740992, .str "Alpha", []⟩, ⟨9007199254740992, .str "Launch", []⟩]⟩)
    ∧ ¬ UniqueIds
        ⟨[⟨9007199254740992, .str "Alpha", []⟩, ⟨9007199254740992, .str "Launch", []⟩]⟩ :=
  ⟨by simp [UniqueIds], rfl, by simp [UniqueIds]⟩

/-! ## No update, no delete -/

/-- C9: no request updates or deletes anything. After any request the store is the store
before it, or the store before it with one new entity at the end of one collection: a
programme without modules at the end of the programmes, a module without tasks at the end of
one programme's modules, or a task at the end of one module's tasks, everything else keeping
its fields and its place. A request whose method is not POST (GET, PUT, DELETE) leaves the
store identical. -/
theorem C9_create_and_read_only (maxSpread : Nat) (data : Store) (req : Request) :
    ((router maxSpread data req).2 = data
      ∨ (∃ p : Programme, p.modules = []
          ∧ (router maxSpread data req).2.programmes = data.programmes ++ [p])
      ∨ (∃ (pre post : List Programme) (P : Programme) (m : Module),
          data.programmes = pre ++ P :: post ∧ m.tasks = []
          ∧ (router maxSpread data req).2.programmes
              = pre ++ ⟨P.id, P.name, P.modules ++ [m]⟩ :: post)
      ∨ (∃ (pre post : List Programme) (P : Programme) (mpre mpost : List Module)
          (M : Module) (t : Task),
          data.programmes = pre ++ P :: post ∧ P.modules = mpre ++ M :: mpost
          ∧ (router maxSpread data req).2.programmes
              = pre ++ ⟨P.id, P.name, mpre ++ ⟨M.id, M.name, M.tasks ++ [t]⟩ :: mpost⟩ :: post))
    ∧ (req.method ≠ "POST" → (router maxSpread data req).2 = data) := by
  constructor
  · rcases router_step maxSpread data req with
      e | ⟨p, hmods, -, e'⟩ | ⟨pre, post, P, m, e, ht, -, e'⟩
      | ⟨pre, post, P, mpre, mpost, M, t, e, eM, -, e'⟩
    · exact Or.inl e
    · exact Or.inr (Or.inl ⟨p, hmods, e'⟩)
    · exact Or.inr (Or.inr (Or.inl ⟨pre, post, P, m, e, ht, e'⟩))
    · exact Or.inr (Or.inr (Or.inr ⟨pre, post, P, mpre, mpost, M, t, e, eM, e'⟩))
  · intro hm
    rcases router_cases maxSpread data req with
      ⟨-, e⟩ | e | ⟨-, e⟩ | ⟨h, -⟩ | ⟨h, -⟩ | ⟨h, -⟩
    · exact e
    · rw [e]
    · rw [e]
    · exact absurd h hm
    · exact absurd h hm
    · exact absurd h hm

/-- C9 at a DELETE request for an existing programme: the store is left as it was. -/
theorem C9_create_and_read_only_witness :
    (router 100000 ⟨[⟨1, .str "Launch", []⟩]⟩ ⟨"DELETE", "/api/programmes/1".toList, none⟩).2
      = ⟨[⟨1, .str "Launch", []⟩]⟩ :=
  (C9_create_and_read_only 100000 ⟨[⟨1, .str "Launch", []⟩]⟩
    ⟨"DELETE", "/api/programmes/1".toList, none⟩).2 (by decide)

/-! ## Malformed bodies -/

theorem exists_find?_of_number (ps : List Programme) (id : Number)
    (h : ∃ p ∈ ps, Number.int p.id = id) :
    ∃ p, ps.find? (fun p => Number.int p.id == id) = some p := by
  cases hf : ps.find? (fun p => Number.int p.id == id) with
  | some p => exact ⟨p, rfl⟩
  | none =>
    obtain ⟨p, hp, hid⟩ := h
    rw [List.find?_eq_none] at hf
    exact absurd (by simpa using hid) (hf p hp)

theorem exists_findModule_of_number (ps : List Programme) (id : Number)
    (h : ∃ p ∈ ps, ∃ m ∈ p.modules, Number.int m.id = id) :
    ∃ P M, findModule id ps = some (P, M) := by
  cases hf : findModule id ps with
  | some found => exact ⟨found.1, found.2, rfl⟩
  | none =>
    obtain ⟨p, hp, m, hm, hid⟩ := h
    exact absurd hid ((findModule_eq_none _ _).mp hf p hp m hm)

/-- C7, as the code has it: a POST under `/api` whose body is not well-formed JSON leaves the
store unchanged and is answered with 400 `{error: "Invalid JSON"}` or with 404; the answer is
400 `{error: "Invalid JSON"}` on `POST /api/programmes`, on `POST /api/programmes/<id>/modules`
when a programme has that id, and on `POST /api/modules/<id>/tasks` when a programme owns a
module with that id. The id of the path is read by `parseInt`: the two statements hold for
every id when "has that id" is taken on the number that `parseInt` gives (`toNumber id`), which
is `id` itself for every id that a JavaScript number holds, as the ids of a document are. -/
theorem C7_malformed_body (maxSpread : Nat) (data : Store) :
    router maxSpread data ⟨"POST", "/api/programmes".toList, none⟩
      = (.json 400 (.error "Invalid JSON"), data)
    ∧ (∀ id : Int, (∃ p ∈ data.programmes, Number.int p.id = toNumber id) →
        router maxSpread data ⟨"POST", programmeModulesPath id, none⟩
          = (.json 400 (.error "Invalid JSON"), data))
    ∧ (∀ id : Int, IsDouble id → (∃ p ∈ data.programmes, p.id = id) →
        router maxSpread data ⟨"POST", programmeModulesPath id, none⟩
          = (.json 400 (.error "Invalid JSON"), data))
    ∧ (∀ id : Int, (∃ p ∈ data.programmes, ∃ m ∈ p.modules, Number.int m.id = toNumber id) →
        router maxSpread data ⟨"POST", moduleTasksPath id, none⟩
          = (.json 400 (.error "Invalid JSON"), data))
    ∧ (∀ id : Int, IsDouble id → (∃ p ∈ data.programmes, ∃ m ∈ p.modules, m.id = id) →
        router maxSpread data ⟨"POST", moduleTasksPath id, none⟩
          = (.json 400 (.error "Invalid JSON"), data))
    ∧ (∀ pathname : List Char, startsWith pathname "/api".toList = true →
        router maxSpread data ⟨"POST", pathname, none⟩
            = (.json 400 (.error "Invalid JSON"), data)
          ∨ ∃ message : String,
              router maxSpread data ⟨"POST", pathname, none⟩
                = (.json 404 (.error message), data)) := by
  have hmod : ∀ id : Int, (∃ p ∈ data.programmes, Number.int p.id = toNumber id) →
      router maxSpread data ⟨"POST", programmeModulesPath id, none⟩
        = (.json 400 (.error "Invalid JSON"), data) := by
    intro id hex
    obtain ⟨programme, hfind⟩ := exists_find?_of_number _ _ hex
    rw [router_postModule]
    simp [postModule, hfind, invalidJSON]
  have htask : ∀ id : Int,
      (∃ p ∈ data.programmes, ∃ m ∈ p.modules, Number.int m.id = toNumber id) →
      router maxSpread data ⟨"POST", moduleTasksPath id, none⟩
        = (.json 400 (.error "Invalid JSON"), data) := by
    intro id hex
    obtain ⟨P, M, hfind⟩ := exists_findModule_of_number _ _ hex
    rw [router_postTask]
    simp [postTask, hfind, invalidJSON]
  refine ⟨?_, hmod, ?_, htask, ?_, ?_⟩
  · rw [router_postProgramme]; rfl
  · intro id hid hex
    have hnum : toNumber id = Number.int id := hid
    obtain ⟨p, hp, e⟩ := hex
    exact hmod id ⟨p, hp, by rw [hnum, e]⟩
  · intro id hid hex
    have hnum : toNumber id = Number.int id := hid
    obtain ⟨p, hp, m, hm, e⟩ := hex
    exact htask id ⟨p, hp, m, hm, by rw [hnum, e]⟩
  · intro pathname hs
    rcases router_cases maxSpread data ⟨"POST", pathname, none⟩ with
      ⟨h, -⟩ | e | ⟨h, -⟩ | ⟨-, e⟩ | ⟨-, id, e⟩ | ⟨-, id, e⟩
    · exact absurd rfl h
    · exact Or.inr ⟨_, e⟩
    · simp only at h
      rw [hs] at h
      cases h
    · rw [e]; exact Or.inl rfl
    · rw [e]
      unfold postModule
      split
      · exact Or.inr ⟨_, rfl⟩
      · exact Or.inl rfl
    · rw [e]
      unfold postTask
      split
      · exact Or.inr ⟨_, rfl⟩
      · exact Or.inl rfl

/-- C7 (as amended) on a store with the programmes 1 and 2: a malformed module body for
programme 2 gets 400. -/
theorem C7_malformed_body_witness :
    router 100000 ⟨[⟨1, .str "Launch", []⟩, ⟨2, .str "Beta", [⟨1, .str "a", []⟩]⟩]⟩
        ⟨"POST", programmeModulesPath 2, none⟩
      = (.json 400 (.error "Invalid JSON"),
          ⟨[⟨1, .str "Launch", []⟩, ⟨2, .str "Beta", [⟨1, .str "a", []⟩]⟩]⟩) :=
  (C7_malformed_body 100000
    ⟨[⟨1, .str "Launch", []⟩, ⟨2, .str "Beta", [⟨1, .str "a", []⟩]⟩]⟩).2.2.1 2
    (isDouble_of_abs_le 2 (by decide)) ⟨⟨2, .str "Beta", [⟨1, .str "a", []⟩]⟩, by simp, rfl⟩

/-- C7 as stated fails where the router answers before it reads the body: a POST with a
malformed body to an unknown API path gets 404 `Not Found`, and one to the modules of a
programme that does not exist gets 404 `Programme not found`. -/
theorem C7_counterexample :
    router 100000 ⟨[]⟩ ⟨"POST", "/api/data".toList, none⟩
      = (.json 404 (.error "Not Found"), ⟨[]⟩)
    ∧ router 100000 ⟨[]⟩ ⟨"POST", "/api/programmes/7/modules".toList, none⟩
      = (.json 404 (.error "Programme not found"), ⟨[]⟩) :=
  ⟨rfl, rfl⟩

/-! ## Paths that are not served -/

theorem extractId_undefined : extractId none = none := by decide

theorem postProgramme_ne_notFound (maxSpread : Nat) (data : Store) (body : Option JVal) :
    (postProgramme maxSpread data body).1 ≠ .json 404 (.error "Not Found") := by
  unfold postProgramme
  split
  · simp [invalidJSON]
  · simp [invalidJSON]
  · split
    · simp
    · split_ifs
      · simp
      · split <;> simp [invalidJSON]

theorem getProgramme_ne_notFound (data : Store) (id : Number) :
    (getProgramme data id).1 ≠ .json 404 (.error "Not Found") := by
  unfold getProgramme
  split <;> simp

theorem getModule_ne_notFound (data : Store) (id : Number) :
    (getModule data id).1 ≠ .json 404 (.error "Not Found") := by
  unfold getModule
  split <;> simp

theorem postModule_ne_notFound (maxSpread : Nat) (data : Store) (id : Number)
    (body : Option JVal) :
    (postModule maxSpread data id body).1 ≠ .json 404 (.error "Not Found") := by
  unfold postModule
  split
  · simp
  · split
    · simp [invalidJSON]
    · simp [invalidJSON]
    · split
      · simp
      · split_ifs
        · simp
        · split <;> simp [invalidJSON]

theorem postTask_ne_notFound (maxSpread : Nat) (data : Store) (id : Number)
    (body : Option JVal) :
    (postTask maxSpread data id body).1 ≠ .json 404 (.error "Not Found") := by
  unfold postTask
  split
  · simp
  · split
    · simp [invalidJSON]
    · simp [invalidJSON]
    · split
      · split_ifs
        · simp
        · split <;> simp [invalidJSON]
      · simp

/-- The table `servedEndpoint` is exact: a request that it accepts is never answered with
`{error: "Not Found"}`. -/
theorem served_ne_notFound (maxSpread : Nat) (data : Store) (req : Request)
    (hm : req.method ≠ "OPTIONS") (hs : startsWith req.pathname "/api".toList = true)
    (hserved : servedEndpoint req.method req.pathname = true) :
    (router maxSpread data req).1 ≠ .json 404 (.error "Not Found") := by
  obtain ⟨method, pathname, body⟩ := req
  simp only at hm hs hserved
  by_cases hd : method = "GET" ∧ pathname = "/api/data".toList
  · unfold router
    rw [if_neg hm, if_pos hs]
    simp only
    rw [if_pos hd]
    simp
  · unfold servedEndpoint at hserved
    have hdata : (method == "GET" && pathname == "/api/data".toList) = false := by
      cases h : (method == "GET" && pathname == "/api/data".toList) with
      | false => rfl
      | true =>
        simp only [Bool.and_eq_true, beq_iff_eq] at h
        exact absurd h hd
    rw [hdata, Bool.false_or] at hserved
    rw [router_of_route maxSpread data method pathname body _ hm hs hd rfl]
    generalize parts pathname = ps at hserved
    match ps with
    | [] => simp at hserved
    | [_] => simp at hserved
    | [_, r] =>
      simp at hserved
      obtain ⟨hr, hmeth⟩ := hserved
      subst hr
      rcases hmeth with h | h
      · subst h
        simp [programmesRoutes]
      · subst h
        simp [programmesRoutes]
        exact postProgramme_ne_notFound _ _ _
    | [_, r, seg] =>
      simp at hserved
      obtain ⟨⟨hr, hg⟩, hp⟩ := hserved
      subst hg
      obtain ⟨id, hid⟩ := Option.isSome_iff_exists.mp hp
      rcases hr with h | h
      · subst h
        simp [programmesRoutes, extractId, hid]
        exact getProgramme_ne_notFound _ _
      · subst h
        simp [programmesRoutes, modulesRoutes, extractId, hid]
        exact getModule_ne_notFound _ _
    | [_, r, seg, sub] =>
      simp at hserved
      obtain ⟨⟨hpost, hp⟩, hr⟩ := hserved
      subst hpost
      obtain ⟨id, hid⟩ := Option.isSome_iff_exists.mp hp
      rcases hr with ⟨h1, h2⟩ | ⟨h1, h2⟩
      · subst h1 h2
        simp [programmesRoutes, extractId, hid]
        exact postModule_ne_notFound _ _ _ _
      · subst h1 h2
        simp [programmesRoutes, modulesRoutes, extractId, hid]
        exact postTask_ne_notFound _ _ _ _
    | _ :: _ :: _ :: _ :: _ :: _ => simp at hserved

/-- C10, as the code has it: a request under `/api` whose method is not OPTIONS and which
matches none of the seven endpoints as the router reads them (`servedEndpoint`) is answered
404 `{error: "Not Found"}` and leaves the store unchanged. That covers id segments that do not
start with a number, extra or missing segments, and the methods PUT and DELETE. -/
theorem C10_not_found (maxSpread : Nat) (data : Store) (req : Request)
    (hm : req.method ≠ "OPTIONS") (hs : startsWith req.pathname "/api".toList = true)
    (hserved : servedEndpoint req.method req.pathname = false) :
    router maxSpread data req = (.json 404 (.error "Not Found"), data) := by
  obtain ⟨method, pathname, body⟩ := req
  simp only at hm hs hserved
  unfold servedEndpoint at hserved
  rw [Bool.or_eq_false_iff] at hserved
  obtain ⟨hdata, htable⟩ := hserved
  have hd : ¬ (method = "GET" ∧ pathname = "/api/data".toList) := by
    intro h
    simp [h.1, h.2] at hdata
  rw [router_of_route maxSpread data method pathname body _ hm hs hd rfl]
  generalize parts pathname = ps at htable
  match ps with
  | [] => simp [programmesRoutes, modulesRoutes]
  | [_] => simp [programmesRoutes, modulesRoutes]
  | [_, r] =>
    simp [programmesRoutes, modulesRoutes, extractId_undefined] at htable ⊢
    by_cases hr : r = "programmes".toList
    · have h := htable (by simpa using hr)
      simp [h.1, h.2]
    · simp at hr
      simp [hr]
  | [_, r, seg] =>
    simp [programmesRoutes, modulesRoutes, extractId] at htable ⊢
    cases hp : parseInt seg with
    | none => simp
    | some id =>
      have hg : ¬ method = "GET" ∨ (r ≠ "programmes".toList ∧ r ≠ "modules".toList) := by
        by_cases hg : method = "GET"
        · right
          constructor
          · intro hr
            have := htable (Or.inl (by simpa using hr)) hg
            rw [hp] at this
            cases this
          · intro hr
            have := htable (Or.inr (by simpa using hr)) hg
            rw [hp] at this
            cases this
        · exact Or.inl hg
      rcases hg with hg | ⟨h1, h2⟩
      · simp [hg]
      · simp at h1 h2
        simp [h1, h2]
  | [_, r, seg, sub] =>
    simp [programmesRoutes, modulesRoutes, extractId] at htable ⊢
    cases hp : parseInt seg with
    | none => simp
    | some id =>
      by_cases hpost : method = "POST"
      · have h := htable hpost (by rw [hp]; rfl)
        by_cases h1 : r = "programmes".toList
        · have h1' := h.1 (by simpa using h1)
          simp at h1
          subst h1
          simp [h1']
        · by_cases h2 : r = "modules".toList
          · have h2' := h.2 (by simpa using h2)
            simp at h2
            subst h2
            simp [h2']
          · simp at h1 h2
            simp [h1, h2]
      · simp [hpost]
  | _ :: _ :: _ :: _ :: _ :: _ =>
    simp only [programmesRoutes, modulesRoutes, extractId, List.drop, List.head?, List.get?,
      List.length]
    cases parseInt _ <;> simp

/-- C10 (as amended) at a PUT request for the programmes collection. -/
theorem C10_not_found_witness :
    router 100000 ⟨[⟨1, .str "Launch", []⟩]⟩ ⟨"PUT", "/api/programmes".toList, none⟩
      = (.json 404 (.error "Not Found"), ⟨[⟨1, .str "Launch", []⟩]⟩) :=
  C10_not_found 100000 ⟨[⟨1, .str "Launch", []⟩]⟩ ⟨"PUT", "/api/programmes".toList, none⟩
    (by decide) (by decide) (by decide)

/-- C10 as stated fails at three requests under `/api` that are not among the listed
endpoints: an id segment that is only partly numeric is read as its leading number
(`/api/programmes/1abc` is programme 1), a preflight gets the empty 204 answer, and any first
segment that starts with `api` reaches the API routes (`/apix/programmes` lists the
programmes). -/
theorem C10_counterexample :
    (startsWith "/api/programmes/1abc".toList "/api".toList = true
      ∧ specListedEndpoint "GET" "/api/programmes/1abc".toList = false
      ∧ router 100000 ⟨[⟨1, .str "Launch", []⟩]⟩
          ⟨"GET", "/api/programmes/1abc".toList, none⟩
        = (.json 200 (.programme ⟨1, .str "Launch", []⟩), ⟨[⟨1, .str "Launch", []⟩]⟩))
    ∧ (startsWith "/api/programmes".toList "/api".toList = true
      ∧ specListedEndpoint "OPTIONS" "/api/programmes".toList = false
      ∧ router 100000 ⟨[]⟩ ⟨"OPTIONS", "/api/programmes".toList, none⟩ = (.preflight, ⟨[]⟩))
    ∧ (startsWith "/apix/programmes".toList "/api".toList = true
      ∧ specListedEndpoint "GET" "/apix/programmes".toList = false
      ∧ router 100000 ⟨[]⟩ ⟨"GET", "/apix/programmes".toList, none⟩
        = (.json 200 (.programmes []), ⟨[]⟩)) :=
  ⟨⟨by decide, by decide, rfl⟩, ⟨by decide, by decide, rfl⟩, ⟨by decide, by decide, rfl⟩⟩

end ProjectTracker
